import Mathlib

/-!
# Verification of the NeuraSynth freelance-marketplace backend

Shallow embedding of the parts of the repository that the frozen claims
C1–C10 are about:

* a model of Python values (`PyVal`) as exchanged through JSON columns and
  automation-rule dictionaries, with the Python operations (`==`, `<=`,
  `in`, `str`) the code applies to them;
* the Python `json` standard-library pair `json.dumps` / `json.loads`
  restricted to the values the repository stores (dicts, lists, strings,
  integers, booleans, `None`; floats are outside the embedding);
* the ORM getter/setter pairs of `organization.py` and `ai_engine.py`;
* the matching engines of `src/src/advanced_ai_systems.py`,
  `advanced_ai_systems_draft.py` and `src/src/project_matching.py`
  (real numbers are modelled by `ℚ`; the fitted scikit-learn components —
  TF-IDF vectorizer, scaler, random-forest model — are opaque external
  state and are modelled by an explicit oracle parameter whose `none`
  result models the exception a call on an unfitted model raises);
* the rule-condition evaluator of `src/src/intelligent_automation.py`;
* the synthetic hyperparameter search of `src/src/performance_optimizer.py`
  (`np.random` draws are modelled by an explicit noise-stream parameter).
-/

/-! ## Python values

`PyVal` models the Python values that flow through the JSON text columns
and the automation dictionaries: `None`, booleans, integers, strings,
lists and string-keyed dicts.  Dicts are association lists in insertion
order, mirroring CPython's ordered dicts.  Floats are not modelled. -/

mutual

inductive PyVal : Type where
  | null : PyVal
  | bool : Bool → PyVal
  | num : Int → PyVal
  | str : String → PyVal
  | list : PyList → PyVal
  | obj : PyObj → PyVal

inductive PyList : Type where
  | nil : PyList
  | cons : PyVal → PyList → PyList

inductive PyObj : Type where
  | nil : PyObj
  | cons : String → PyVal → PyObj → PyObj

end

namespace PyObj

/-- `d[k]` lookup / `k in d` on a Python dict: first (only) binding wins. -/
def lookup : PyObj → String → Option PyVal
  | .nil, _ => none
  | .cons k v tl, key => if k = key then some v else lookup tl key

/-- The keys of a dict, in insertion order. -/
def keys : PyObj → List String
  | .nil => []
  | .cons k _ tl => k :: keys tl

/-- The bindings of a dict, in insertion order (`d.items()`). -/
def toPairs : PyObj → List (String × PyVal)
  | .nil => []
  | .cons k v tl => (k, v) :: toPairs tl

/-- Number of bindings (`len(d)`). -/
def size : PyObj → Nat
  | .nil => 0
  | .cons _ _ tl => size tl + 1

/-- CPython dict insertion `d[k] = v`: overwrite in place if the key
exists, else append at the end. -/
def insert : PyObj → String → PyVal → PyObj
  | .nil, k, v => .cons k v .nil
  | .cons k' v' tl, k, v =>
      if k' = k then .cons k' v tl else .cons k' v' (insert tl k v)

/-- Concatenation of two association lists (used only in proofs about
`insert`). -/
def append : PyObj → PyObj → PyObj
  | .nil, b => b
  | .cons k v tl, b => .cons k v (append tl b)

end PyObj

namespace PyList

def length : PyList → Nat
  | .nil => 0
  | .cons _ tl => length tl + 1

end PyList

/-- Building a Python dict from parsed key/value pairs in order, as
`json.loads` does: repeated keys overwrite, last one wins. -/
def objFromList (l : List (String × PyVal)) : PyObj :=
  l.foldl (fun o kv => o.insert kv.1 kv.2) .nil

/-! ## The Python `json` library (`json.dumps` / `json.loads`)

Modelled from the CPython standard library as used by the ORM getters and
setters: `dumps` with the default separators `", "` and `": "`, `loads`
over the same grammar.  Numbers are integers; `dumps` keeps non-ASCII
characters literal (the round-trip property is unaffected by the
`ensure_ascii` wire format). -/

/-- One lowercase hexadecimal digit. -/
def hexDig (n : Nat) : Char :=
  if n < 10 then Char.ofNat (48 + n) else Char.ofNat (87 + n)

/-- Value of a hexadecimal digit character. -/
def hexVal (c : Char) : Option Nat :=
  if 48 ≤ c.toNat ∧ c.toNat ≤ 57 then some (c.toNat - 48)
  else if 97 ≤ c.toNat ∧ c.toNat ≤ 102 then some (c.toNat - 87)
  else if 65 ≤ c.toNat ∧ c.toNat ≤ 70 then some (c.toNat - 55)
  else none

/-- JSON string escaping of a single character (`json.encoder`):
the named two-character escapes, `\u00XX` for remaining control
characters, everything else literal. -/
def escChar (c : Char) : List Char :=
  if c = '"' then ['\\', '"']
  else if c = '\\' then ['\\', '\\']
  else if c = '\n' then ['\\', 'n']
  else if c = '\t' then ['\\', 't']
  else if c = '\r' then ['\\', 'r']
  else if c = '\x08' then ['\\', 'b']
  else if c = '\x0c' then ['\\', 'f']
  else if c.toNat < 32 then
    ['\\', 'u', '0', '0', hexDig (c.toNat / 16), hexDig (c.toNat % 16)]
  else [c]

/-- Escape a whole string. -/
def escStr : List Char → List Char
  | [] => []
  | c :: cs => escChar c ++ escStr cs

/-- Decimal digits of a natural number, most significant first;
`natChars 0 = "0"` as in Python. -/
def natChars (n : Nat) : List Char :=
  if n = 0 then ['0']
  else (Nat.digits 10 n).reverse.map (fun d => Char.ofNat (48 + d))

/-- Decimal rendering of a Python `int`. -/
def intChars (n : Int) : List Char :=
  if n < 0 then '-' :: natChars n.natAbs else natChars n.toNat

mutual

/-- `json.dumps` of a value, as a character list (default separators). -/
def dumpsV : PyVal → List Char
  | .num n => intChars n
  | .str s => '"' :: (escStr s.data ++ ['"'])
  | .null => ['n', 'u', 'l', 'l']
  | .bool false => ['f', 'a', 'l', 's', 'e']
  | .list l => '[' :: (dumpsL l ++ [']'])
  | .bool true => ['t', 'r', 'u', 'e']
  | .obj o => '{' :: (dumpsO o ++ ['}'])

/-- The comma-separated items of a dumped list. -/
def dumpsL : PyList → List Char
  | .nil => []
  | .cons x .nil => dumpsV x
  | .cons x (.cons y tl) => dumpsV x ++ ',' :: ' ' :: dumpsL (.cons y tl)

/-- The comma-separated `"key": value` members of a dumped dict. -/
def dumpsO : PyObj → List Char
  | .nil => []
  | .cons k v .nil => '"' :: (escStr k.data ++ '"' :: ':' :: ' ' :: dumpsV v)
  | .cons k v (.cons k' v' tl) =>
      '"' :: (escStr k.data ++ '"' :: ':' :: ' ' :: dumpsV v)
        ++ ',' :: ' ' :: dumpsO (.cons k' v' tl)

end

/-- `json.dumps` as a `String`. -/
def dumps (v : PyVal) : String := String.mk (dumpsV v)

/-- JSON whitespace skipping (space, tab, newline, carriage return). -/
def wsSkip : List Char → List Char
  | [] => []
  | c :: cs =>
      if c = ' ' ∨ c = '\t' ∨ c = '\n' ∨ c = '\r' then wsSkip cs else c :: cs

/-- The two-character escapes accepted after a backslash. -/
def unescChar (e : Char) : Option Char :=
  if e = '"' then some '"'
  else if e = '\\' then some '\\'
  else if e = '/' then some '/'
  else if e = 'b' then some '\x08'
  else if e = 'f' then some '\x0c'
  else if e = 'n' then some '\n'
  else if e = 'r' then some '\r'
  else if e = 't' then some '\t'
  else none

/-- Parse the contents of a JSON string after the opening quote; returns
the decoded characters and the remaining input after the closing quote. -/
def parseStrChars : List Char → Option (List Char × List Char)
  | [] => none
  | c :: r =>
      if c = '"' then some ([], r)
      else if c = '\\' then
        match r with
        | [] => none
        | e :: r2 =>
            if e = 'u' then
              match r2 with
              | a :: b :: c2 :: d :: r3 =>
                  match hexVal a, hexVal b, hexVal c2, hexVal d with
                  | some x, some y, some z, some w =>
                      (parseStrChars r3).map
                        (fun p => (Char.ofNat (((x * 16 + y) * 16 + z) * 16 + w) :: p.1, p.2))
                  | _, _, _, _ => none
              | _ => none
            else
              match unescChar e with
              | some ch => (parseStrChars r2).map (fun p => (ch :: p.1, p.2))
              | none => none
      else (parseStrChars r).map (fun p => (c :: p.1, p.2))

/-- Digit-string value, most significant first. -/
def parseNatVal (ds : List Char) : Nat :=
  ds.foldl (fun a c => 10 * a + (c.toNat - 48)) 0

/-- Parse a nonempty run of decimal digits. -/
def parseNumDigits (cs : List Char) : Option (Nat × List Char) :=
  let ds := cs.takeWhile Char.isDigit
  if ds.isEmpty then none else some (parseNatVal ds, cs.dropWhile Char.isDigit)

/-- Strip an expected literal prefix. -/
def dropPre : List Char → List Char → Option (List Char)
  | [], cs => some cs
  | _ :: _, [] => none
  | p :: ps, c :: cs => if c = p then dropPre ps cs else none

mutual

/-- Fuel-indexed JSON value parser (`json.loads` grammar restricted to
integer numbers).  Returns the value and the unconsumed suffix. -/
def parseV : Nat → List Char → Option (PyVal × List Char)
  | 0, _ => none
  | fuel + 1, cs =>
      match wsSkip cs with
      | [] => none
      | c :: r =>
          if c = 'n' then (dropPre ['u', 'l', 'l'] r).map (fun r2 => (.null, r2))
          else if c = 't' then (dropPre ['r', 'u', 'e'] r).map (fun r2 => (.bool true, r2))
          else if c = 'f' then (dropPre ['a', 'l', 's', 'e'] r).map (fun r2 => (.bool false, r2))
          else if c = '"' then
            (parseStrChars r).map (fun p => (.str (String.mk p.1), p.2))
          else if c = '[' then
            match wsSkip r with
            | ']' :: r2 => some (.list .nil, r2)
            | _ =>
                match parseL fuel r with
                | some (l, r2) => some (.list l, r2)
                | none => none
          else if c = '{' then
            match wsSkip r with
            | '}' :: r2 => some (.obj .nil, r2)
            | _ =>
                match parseO fuel r with
                | some (m, r2) => some (.obj (objFromList m), r2)
                | none => none
          else if c = '-' then
            (parseNumDigits r).map (fun p => (.num (-(p.1 : Int)), p.2))
          else if c.isDigit then
            (parseNumDigits (c :: r)).map (fun p => (.num (p.1 : Int), p.2))
          else none

/-- Items of a nonempty JSON array, consuming the closing `]`. -/
def parseL : Nat → List Char → Option (PyList × List Char)
  | 0, _ => none
  | fuel + 1, cs =>
      match parseV fuel cs with
      | none => none
      | some (v, r) =>
          match wsSkip r with
          | [] => none
          | c :: r2 =>
              if c = ',' then
                match parseL fuel r2 with
                | some (tl, r3) => some (.cons v tl, r3)
                | none => none
              else if c = ']' then some (.cons v .nil, r2)
              else none

/-- Members of a nonempty JSON object, consuming the closing `}`. -/
def parseO : Nat → List Char → Option (List (String × PyVal) × List Char)
  | 0, _ => none
  | fuel + 1, cs =>
      match wsSkip cs with
      | [] => none
      | c :: r =>
          if c = '"' then
            match parseStrChars r with
            | none => none
            | some (k, r1) =>
                match wsSkip r1 with
                | [] => none
                | c1 :: r2 =>
                    if c1 = ':' then
                      match parseV fuel r2 with
                      | none => none
                      | some (v, r3) =>
                          match wsSkip r3 with
                          | [] => none
                          | c2 :: r4 =>
                              if c2 = ',' then
                                match parseO fuel r4 with
                                | some (m, r5) => some ((String.mk k, v) :: m, r5)
                                | none => none
                              else if c2 = '}' then some ([(String.mk k, v)], r4)
                              else none
                    else none
          else none

end

/-- `json.loads`: parse a whole document, allowing trailing whitespace,
rejecting any other trailing input.  A `none` result models the
`json.JSONDecodeError` the library raises. -/
def loads (s : String) : Option PyVal :=
  match parseV (s.length + 1) s.data with
  | some (v, r) => if wsSkip r = [] then some v else none
  | none => none

/-- `json.loads` with the raised `JSONDecodeError` explicit, as the ORM
getters observe it. -/
def loadsExc (s : String) : Except String PyVal :=
  match loads s with
  | some v => .ok v
  | none => .error "JSONDecodeError"

/-! ## ORM models with JSON text columns

`src/organization.py` (`Organization.settings`) and `src/ai_engine.py`
(`AIModel.parameters`, `AIModel.performance_metrics`).  A nullable `Text`
column is an `Option String`. -/

structure Organization where
  name : String
  domain : Option String := none
  description : Option String := none
  settings : Option String := none

namespace Organization

/-- `get_settings`: `json.loads(self.settings or '{}')`, catching
`JSONDecodeError` with `{}`. -/
def get_settings (o : Organization) : PyVal :=
  let raw := match o.settings with
    | none => "{}"
    | some s => if s = "" then "{}" else s
  match loadsExc raw with
  | .ok v => v
  | .error _ => .obj .nil

/-- `set_settings`: `self.settings = json.dumps(settings_dict)`. -/
def set_settings (o : Organization) (d : PyObj) : Organization :=
  { o with settings := some (dumps (.obj d)) }

end Organization

structure AIModel where
  name : String
  version : String
  model_type : String
  parameters : Option String := none
  performance_metrics : Option String := none

namespace AIModel

/-- `get_parameters`: parse the column if truthy, `{}` on a missing value
or a `JSONDecodeError`. -/
def get_parameters (m : AIModel) : PyVal :=
  match m.parameters with
  | none => .obj .nil
  | some s =>
      if s = "" then .obj .nil
      else
        match loadsExc s with
        | .ok v => v
        | .error _ => .obj .nil

/-- `set_parameters`: `self.parameters = json.dumps(params_dict)`. -/
def set_parameters (m : AIModel) (d : PyObj) : AIModel :=
  { m with parameters := some (dumps (.obj d)) }

/-- `get_performance_metrics`, same shape as `get_parameters`. -/
def get_performance_metrics (m : AIModel) : PyVal :=
  match m.performance_metrics with
  | none => .obj .nil
  | some s =>
      if s = "" then .obj .nil
      else
        match loadsExc s with
        | .ok v => v
        | .error _ => .obj .nil

/-- `set_performance_metrics`. -/
def set_performance_metrics (m : AIModel) (d : PyObj) : AIModel :=
  { m with performance_metrics := some (dumps (.obj d)) }

end AIModel

/-! ## Nested key-uniqueness

A Python dict has unique keys at every nesting level; `nodupKeysV v`
states that every dict inside `v` does. -/

mutual

def nodupKeysV : PyVal → Bool
  | .null | .bool _ | .num _ | .str _ => true
  | .list l => nodupKeysL l
  | .obj o => (o.keys.Nodup : Bool) && nodupKeysO o

def nodupKeysL : PyList → Bool
  | .nil => true
  | .cons x tl => nodupKeysV x && nodupKeysL tl

def nodupKeysO : PyObj → Bool
  | .nil => true
  | .cons _ v tl => nodupKeysV v && nodupKeysO tl

end

/-! Fuel consumed by the parser: one unit per `parseV`/`parseL`/`parseO`
activation on the way down. -/

mutual

def needV : PyVal → Nat
  | .null | .bool _ | .num _ | .str _ => 1
  | .list l => 1 + needL l
  | .obj o => 1 + needO o

def needL : PyList → Nat
  | .nil => 1
  | .cons x .nil => 1 + needV x
  | .cons x (.cons y tl) => 1 + max (needV x) (needL (.cons y tl))

def needO : PyObj → Nat
  | .nil => 1
  | .cons _ v .nil => 1 + needV v
  | .cons _ v (.cons k' v' tl) => 1 + max (needV v) (needO (.cons k' v' tl))

end

/-! ## Python operations on values

The comparison, membership and rendering operations that
`IntelligentAutomationEngine._evaluate_conditions`
(`src/src/intelligent_automation.py`) applies to condition and context
values.  A `none` result models a raised `TypeError`. -/

mutual

/-- Python `==` (total): `True == 1` holds, dict comparison is
order-insensitive, mismatched types compare unequal. -/
def pyEqV : PyVal → PyVal → Bool
  | .null, .null => true
  | .bool x, .bool y => x = y
  | .bool x, .num m => (if x then (1 : Int) else 0) = m
  | .num n, .bool y => n = (if y then (1 : Int) else 0)
  | .num n, .num m => n = m
  | .str s, .str t => s = t
  | .list l1, .list l2 => pyEqL l1 l2
  | .obj o1, .obj o2 => o1.size = o2.size && pyEqO o1 o2
  | _, _ => false

def pyEqL : PyList → PyList → Bool
  | .nil, .nil => true
  | .cons x xs, .cons y ys => pyEqV x y && pyEqL xs ys
  | _, _ => false

/-- Every binding of the first dict is matched in the second. -/
def pyEqO : PyObj → PyObj → Bool
  | .nil, _ => true
  | .cons k v tl, o2 =>
      (match o2.lookup k with
       | some v2 => pyEqV v v2
       | none => false) && pyEqO tl o2

end

/-- Lexicographic `<` on character lists (Python string comparison). -/
def lexLt : List Char → List Char → Bool
  | [], [] => false
  | [], _ :: _ => true
  | _ :: _, [] => false
  | c :: cs, d :: ds => if c = d then lexLt cs ds else decide (c < d)

/-- Lexicographic `≤` on character lists. -/
def lexLe : List Char → List Char → Bool
  | [], _ => true
  | _ :: _, [] => false
  | c :: cs, d :: ds => if c = d then lexLe cs ds else decide (c < d)

/-- A Python number operand: an `int`, or a `bool` coerced to `0`/`1`. -/
def asNum : PyVal → Option Int
  | .num n => some n
  | .bool b => some (if b then 1 else 0)
  | _ => none

mutual

/-- Python `<=`: numbers, strings and lists are ordered; anything else
raises `TypeError` (`none`). -/
def pyLeV : PyVal → PyVal → Option Bool
  | a, b =>
      match asNum a, asNum b with
      | some n, some m => some (decide (n ≤ m))
      | _, _ =>
          match a, b with
          | .str s, .str t => some (lexLe s.data t.data)
          | .list l1, .list l2 => pyLeL l1 l2
          | _, _ => none

/-- Python `<`. -/
def pyLtV : PyVal → PyVal → Option Bool
  | a, b =>
      match asNum a, asNum b with
      | some n, some m => some (decide (n < m))
      | _, _ =>
          match a, b with
          | .str s, .str t => some (lexLt s.data t.data)
          | .list l1, .list l2 => pyLtL l1 l2
          | _, _ => none

/-- Python list `<=`: lexicographic, first differing elements compared
with `<`, errors propagate. -/
def pyLeL : PyList → PyList → Option Bool
  | .nil, _ => some true
  | .cons _ _, .nil => some false
  | .cons x xs, .cons y ys =>
      if pyEqV x y then pyLeL xs ys else pyLtV x y

/-- Python list `<`. -/
def pyLtL : PyList → PyList → Option Bool
  | .nil, .nil => some false
  | .nil, .cons _ _ => some true
  | .cons _ _, .nil => some false
  | .cons x xs, .cons y ys =>
      if pyEqV x y then pyLtL xs ys else pyLtV x y

end

mutual

/-- Python `repr` of a value (string escaping inside `repr` is not
modelled; only quoting). -/
def pyReprV : PyVal → String
  | .null => "None"
  | .bool true => "True"
  | .bool false => "False"
  | .num n => String.mk (intChars n)
  | .str s => "'" ++ s ++ "'"
  | .list l => "[" ++ pyReprL l ++ "]"
  | .obj o => "\x7b" ++ pyReprO o ++ "\x7d"

def pyReprL : PyList → String
  | .nil => ""
  | .cons x .nil => pyReprV x
  | .cons x (.cons y tl) => pyReprV x ++ ", " ++ pyReprL (.cons y tl)

def pyReprO : PyObj → String
  | .nil => ""
  | .cons k v .nil => "'" ++ k ++ "': " ++ pyReprV v
  | .cons k v (.cons k' v' tl) =>
      "'" ++ k ++ "': " ++ pyReprV v ++ ", " ++ pyReprO (.cons k' v' tl)

end

/-- Python `str()`: identity on strings, `repr`-based elsewhere. -/
def pyStrV : PyVal → String
  | .str s => s
  | v => pyReprV v

/-- `needle` occurs as a prefix of `hay`. -/
def isPre : List Char → List Char → Bool
  | [], _ => true
  | _ :: _, [] => false
  | a :: as_, b :: bs => a = b && isPre as_ bs

/-- Python substring test `needle in hay`. -/
def subStr (needle : List Char) : List Char → Bool
  | [] => isPre needle []
  | c :: t => isPre needle (c :: t) || subStr needle t

/-- Python list membership, by `==`. -/
def pyListMem (x : PyVal) : PyList → Bool
  | .nil => false
  | .cons y tl => pyEqV x y || pyListMem x tl

/-- Python `x in container`: list membership, substring test, or dict key
test; `none` models the `TypeError` on a non-container or an unhashable
key. -/
def pyContains (container x : PyVal) : Option Bool :=
  match container with
  | .list l => some (pyListMem x l)
  | .str s =>
      match x with
      | .str t => some (subStr t.data s.data)
      | _ => none
  | .obj o =>
      match x with
      | .str k => some (o.lookup k).isSome
      | .num _ | .bool _ | .null => some false
      | .list _ | .obj _ => none
  | _ => none

/-! ## The automation rule-condition evaluator

`IntelligentAutomationEngine._evaluate_conditions`
(`src/src/intelligent_automation.py`, lines 133–164). -/

/-- The check a single condition performs on the context value
`actual`: a dict condition dispatches on its `operator` member (with an
unrecognized operator performing no check), any other condition value is
a plain equality test.  `none` models a raised `TypeError`. -/
def checkCondition (actual cond : PyVal) : Option Bool :=
  match cond with
  | .obj o =>
      let op := (o.lookup "operator").getD (.str "equals")
      let expected := (o.lookup "value").getD .null
      if pyEqV op (.str "equals") then some (pyEqV actual expected)
      else if pyEqV op (.str "greater_than") then
        match pyLeV actual expected with
        | some b => some (!b)
        | none => none
      else if pyEqV op (.str "less_than") then
        match pyLeV expected actual with
        | some b => some (!b)
        | none => none
      else if pyEqV op (.str "contains") then
        match expected with
        | .str s => some (subStr s.data (pyStrV actual).data)
        | _ => none
      else if pyEqV op (.str "in") then pyContains expected actual
      else some true
  | _ => some (pyEqV actual cond)

/-- The condition loop: first missing key or failed check returns
`False`; a raised error (`none`) escapes to the surrounding `try`. -/
def evalConditionsLoop (ctx : PyObj) : List (String × PyVal) → Option Bool
  | [] => some true
  | (k, cv) :: rest =>
      match ctx.lookup k with
      | none => some false
      | some av =>
          match checkCondition av cv with
          | none => none
          | some false => some false
          | some true => evalConditionsLoop ctx rest

/-- `_evaluate_conditions(conditions, context_data)`: the loop above under
`try`, with `except Exception: return False`. -/
def evaluate_conditions (conditions ctx : PyObj) : Bool :=
  match evalConditionsLoop ctx conditions.toPairs with
  | some b => b
  | none => false

/-! ## Shared list helpers

Stable descending sort by a rational key (`list.sort(key=..., reverse=True)`
is a stable sort; only sortedness and permutation are used in theorems),
and Python-dict-style association-list access. -/

/-- Insert keeping earlier elements first among equal keys (stability of
the Python sort). -/
def insertByDesc {α : Type} (key : α → ℚ) (x : α) : List α → List α
  | [] => [x]
  | y :: ys => if key y < key x then x :: y :: ys else y :: insertByDesc key x ys

/-- Stable sort into non-increasing key order. -/
def sortByDesc {α : Type} (key : α → ℚ) : List α → List α
  | [] => []
  | x :: xs => insertByDesc key x (sortByDesc key xs)

/-- `d.get(k)` on a typed association list. -/
def alookup {α : Type} (l : List (String × α)) (k : String) : Option α :=
  (l.find? (·.1 == k)).map (·.2)

/-- `d[k] = v` on a typed association list (overwrite in place or
append, as CPython dicts do). -/
def aset {α : Type} (l : List (String × α)) (k : String) (v : α) : List (String × α) :=
  match l with
  | [] => [(k, v)]
  | (k', v') :: tl => if k' = k then (k', v) :: tl else (k', v') :: aset tl k v

/-- Python `round(x, 3)`: scale by `10^3` and round half to even
(modelled exactly on `ℚ`; binary-float artifacts are outside the
embedding). -/
def pyRound3 (q : ℚ) : ℚ :=
  let s := q * 1000
  let f := ⌊s⌋
  let r := s - f
  let n : ℤ :=
    if r < 1/2 then f
    else if 1/2 < r then f + 1
    else if f % 2 = 0 then f else f + 1
  (n : ℚ) / 1000

/-! ## The advanced matching engines

`AdvSrc` embeds `src/src/advanced_ai_systems.py`; `AdvDraft` embeds the
duplicated copy in `advanced_ai_systems_draft.py`.  Reals are `ℚ`.  The
fitted scikit-learn components (`skill_vectorizer`, `success_model`,
`scaler`) are opaque external state, modelled by `MLOracle`: `none` from
`transformSim` models the exception `transform` raises (e.g.
`NotFittedError`), which the outer `try` of `extract_features` catches;
`none` from `predictSuccess` models an exception in the scaler/predict
block, caught by the inner `try`. -/

/-- The fitted ML components an engine holds. -/
structure MLOracle where
  transformSim : String → String → Option ℚ
  predictSuccess : ℚ → ℚ → ℚ → ℚ → ℚ → Option ℚ

/-- A freelancer dict as consumed by `extract_features`; `none` is an
absent key, so `.getD` is Python's `.get(key, default)`. -/
structure FreelancerData where
  name : Option String := none
  skills : Option (List String) := none
  experience_years : Option ℚ := none
  hourly_rate : Option ℚ := none
  availability_hours_per_week : Option ℚ := none
  location : Option String := none
  completion_rate : Option ℚ := none
  average_rating : Option ℚ := none

/-- A project dict as consumed by `extract_features`. -/
structure ProjectData where
  required_skills : Option (List String) := none
  complexity_level : Option ℚ := none
  budget_max : Option ℚ := none
  estimated_hours : Option ℚ := none
  urgency_level : Option ℚ := none
  location : Option String := none

/-- The six extracted features. -/
structure Features where
  skill_similarity : ℚ
  experience_match : ℚ
  budget_compatibility : ℚ
  availability_match : ℚ
  location_preference : ℚ
  success_prediction : ℚ

/-- `features.get(name, 0.0)` over the six-key feature dict. -/
def featuresGet (F : Features) (name : String) : ℚ :=
  if name = "skill_similarity" then F.skill_similarity
  else if name = "experience_match" then F.experience_match
  else if name = "budget_compatibility" then F.budget_compatibility
  else if name = "availability_match" then F.availability_match
  else if name = "location_preference" then F.location_preference
  else if name = "success_prediction" then F.success_prediction
  else 0

/-- The all-`0.5` fallback features of the outer `except` branch. -/
def defaultFeatures : Features :=
  ⟨1/2, 1/2, 1/2, 1/2, 1/2, 1/2⟩

namespace AdvSrc

/-- The mutable state of `AdvancedMatchingEngine`
(`src/src/advanced_ai_systems.py`): the weight table and the ML
components set up in `__init__`. -/
structure EngineState where
  feature_weights : List (String × ℚ)
  oracle : MLOracle

/-- The weight table assigned in `__init__`, in insertion order. -/
def feature_weights_init : List (String × ℚ) :=
  [("skill_similarity", 35/100), ("experience_match", 25/100),
   ("budget_compatibility", 20/100), ("availability_match", 10/100),
   ("location_preference", 5/100), ("success_prediction", 5/100)]

/-- Engine construction: fixed weights, whatever ML state `__init__`
produced (the blueprint engine never fits its models, so its oracle's
`transformSim` always raises). -/
def initState (o : MLOracle) : EngineState := ⟨feature_weights_init, o⟩

/-- `extract_features(self, freelancer_data, project_data)`, state
passed explicitly; the state is read, never written. -/
def extract_features (st : EngineState) (f : FreelancerData) (p : ProjectData) :
    Features × EngineState :=
  let freelancer_skills := String.intercalate " " (f.skills.getD [])
  let project_skills := String.intercalate " " (p.required_skills.getD [])
  let skillRes : Option ℚ :=
    if freelancer_skills ≠ "" ∧ project_skills ≠ "" then
      st.oracle.transformSim freelancer_skills project_skills
    else some 0
  match skillRes with
  | none => (defaultFeatures, st)
  | some skill_similarity =>
      let freelancer_experience := f.experience_years.getD 0
      let project_complexity := p.complexity_level.getD 1
      let required_experience := project_complexity * 2
      let experience_match := min (freelancer_experience / max required_experience 1) 1
      let freelancer_rate := f.hourly_rate.getD 0
      let project_budget_max := p.budget_max.getD 0
      let estimated_hours := p.estimated_hours.getD 40
      let budget_compatibility :=
        if 0 < freelancer_rate ∧ 0 < project_budget_max ∧ 0 < estimated_hours then
          min (project_budget_max / (freelancer_rate * estimated_hours)) 1
        else 1/2
      let freelancer_availability := f.availability_hours_per_week.getD 40
      let project_urgency := p.urgency_level.getD 1
      let availability_match := min (freelancer_availability / max (project_urgency * 10) 1) 1
      let freelancer_location := f.location.getD ""
      let project_location := p.location.getD ""
      let location_preference :=
        if freelancer_location ≠ "" ∧ project_location ≠ "" then
          (if freelancer_location = project_location then 1 else 1/2)
        else 7/10
      let timeline_realism := 1 - (p.urgency_level.getD 1 - 1) * (2/10)
      let freelancer_reliability := f.completion_rate.getD (8/10)
      let success_prediction :=
        match st.oracle.predictSuccess budget_compatibility timeline_realism
            skill_similarity freelancer_reliability (8/10) with
        | some sp => max 0 (min 1 sp)
        | none => 7/10
      (⟨skill_similarity, experience_match, budget_compatibility,
        availability_match, location_preference, success_prediction⟩, st)

/-- `calculate_match_score(self, freelancer_data, project_data)`:
extract features, accumulate `feature_value * weight` over
`self.feature_weights.items()`, clamp to `[0, 1]`. -/
def calculate_match_score (st : EngineState) (f : FreelancerData) (p : ProjectData) :
    ℚ × EngineState :=
  let fs := extract_features st f p
  let total :=
    fs.2.feature_weights.foldl (fun acc kw => acc + featuresGet fs.1 kw.1 * kw.2) 0
  (max 0 (min 1 total), fs.2)

/-- A `users` table row (columns modelled as non-null, as populated by
the application). -/
structure UserRow where
  id : String
  user_type : String
  skills : String
  experience_years : ℚ
  hourly_rate : ℚ
  availability_hours_per_week : ℚ
  location : String
  completion_rate : ℚ
  average_rating : ℚ

/-- A `projects` table row (the columns `find_matches_for_project`
reads). -/
structure ProjectRow where
  id : String
  required_skills : String
  budget_max : ℚ
  estimated_hours : ℚ
  complexity_level : ℚ
  urgency_level : ℚ

/-- A `matches` table row as created by `find_matches_for_project`. -/
structure MatchRow where
  project_id : String
  user_id : String
  score : ℚ

/-- The backing database: `Project.query`, `User.query`, `db.session`. -/
structure OrmDB where
  users : List UserRow
  projects : List ProjectRow
  match_rows : List MatchRow

/-- `Project.query.get(project_id)`. -/
def findProject (db : OrmDB) (pid : String) : Option ProjectRow :=
  db.projects.find? (·.id == pid)

/-- The `project_data` dict built from a row (`.split(',')` on the
skills column; no `location` key). -/
def rowToProjectData (p : ProjectRow) : ProjectData :=
  { required_skills := some (p.required_skills.splitOn ","),
    budget_max := some p.budget_max,
    estimated_hours := some p.estimated_hours,
    complexity_level := some p.complexity_level,
    urgency_level := some p.urgency_level,
    location := none }

/-- The `freelancer_data` dict built from a row. -/
def rowToFreelancerData (u : UserRow) : FreelancerData :=
  { name := none,
    skills := some (u.skills.splitOn ","),
    experience_years := some u.experience_years,
    hourly_rate := some u.hourly_rate,
    availability_hours_per_week := some u.availability_hours_per_week,
    location := some u.location,
    completion_rate := some u.completion_rate,
    average_rating := some u.average_rating }

/-- `find_matches_for_project(self, project_id, max_matches=10)`:
early `[]` if the project id is not in the store; otherwise score every
`user_type == 'freelancer'` row, persist `Match` rows, and return the
`(freelancer_id, match_score)` pairs sorted by score descending, cut to
`max_matches`. -/
def find_matches_for_project (st : EngineState) (db : OrmDB) (project_id : String)
    (max_matches : Nat := 10) : List (String × ℚ) × OrmDB :=
  match findProject db project_id with
  | none => ([], db)
  | some project =>
      let project_data := rowToProjectData project
      let freelancers := db.users.filter (·.user_type == "freelancer")
      let results := freelancers.map (fun u =>
        (u.id, (calculate_match_score st (rowToFreelancerData u) project_data).1))
      let newRows := results.map (fun r => MatchRow.mk project_id r.1 r.2)
      let db2 := { db with match_rows := db.match_rows ++ newRows }
      ((sortByDesc (·.2) results).take max_matches, db2)

end AdvSrc

namespace AdvDraft

/-- The nested `freelancer_profile` dict of a draft match result. -/
structure FreelancerProfile where
  name : String
  skills : List String
  experience_years : ℚ
  hourly_rate : ℚ
  average_rating : ℚ
  completion_rate : ℚ

/-- One `match_result` dict built by the draft
`find_matches_for_project` (scores rounded to three decimals). -/
structure DraftMatch where
  freelancer_id : String
  match_score : ℚ
  skill_similarity : ℚ
  experience_match : ℚ
  budget_compatibility : ℚ
  success_prediction : ℚ
  freelancer_profile : FreelancerProfile

/-- The record stored into `matches_db[project_id]`. -/
structure StoredMatches where
  project_id : String
  match_list : List DraftMatch
  generated_at : String

/-- The draft engine object: weight table, ML components, and the
in-memory `freelancers_db` / `projects_db` / `matches_db` dicts
(`__init__` also loads demo data and trains the models; that only
determines the initial field values and the oracle). -/
structure DraftState where
  feature_weights : List (String × ℚ)
  oracle : MLOracle
  freelancers_db : List (String × FreelancerData)
  projects_db : List (String × ProjectData)
  matches_db : List (String × StoredMatches)

/-- The weight table assigned in the draft `__init__`, in insertion
order. -/
def feature_weights_init : List (String × ℚ) :=
  [("skill_similarity", 35/100), ("experience_match", 25/100),
   ("budget_compatibility", 20/100), ("availability_match", 10/100),
   ("location_preference", 5/100), ("success_prediction", 5/100)]

/-- The draft `extract_features` — the duplicated copy, translated from
`advanced_ai_systems_draft.py` lines 240–354. -/
def extract_features (st : DraftState) (f : FreelancerData) (p : ProjectData) :
    Features × DraftState :=
  let freelancer_skills := String.intercalate " " (f.skills.getD [])
  let project_skills := String.intercalate " " (p.required_skills.getD [])
  let skillRes : Option ℚ :=
    if freelancer_skills ≠ "" ∧ project_skills ≠ "" then
      st.oracle.transformSim freelancer_skills project_skills
    else some 0
  match skillRes with
  | none => (defaultFeatures, st)
  | some skill_similarity =>
      let freelancer_experience := f.experience_years.getD 0
      let project_complexity := p.complexity_level.getD 1
      let required_experience := project_complexity * 2
      let experience_match := min (freelancer_experience / max required_experience 1) 1
      let freelancer_rate := f.hourly_rate.getD 0
      let project_budget_max := p.budget_max.getD 0
      let estimated_hours := p.estimated_hours.getD 40
      let budget_compatibility :=
        if 0 < freelancer_rate ∧ 0 < project_budget_max ∧ 0 < estimated_hours then
          min (project_budget_max / (freelancer_rate * estimated_hours)) 1
        else 1/2
      let freelancer_availability := f.availability_hours_per_week.getD 40
      let project_urgency := p.urgency_level.getD 1
      let availability_match := min (freelancer_availability / max (project_urgency * 10) 1) 1
      let freelancer_location := f.location.getD ""
      let project_location := p.location.getD ""
      let location_preference :=
        if freelancer_location ≠ "" ∧ project_location ≠ "" then
          (if freelancer_location = project_location then 1 else 1/2)
        else 7/10
      let timeline_realism := 1 - (p.urgency_level.getD 1 - 1) * (2/10)
      let freelancer_reliability := f.completion_rate.getD (8/10)
      let success_prediction :=
        match st.oracle.predictSuccess budget_compatibility timeline_realism
            skill_similarity freelancer_reliability (8/10) with
        | some sp => max 0 (min 1 sp)
        | none => 7/10
      (⟨skill_similarity, experience_match, budget_compatibility,
        availability_match, location_preference, success_prediction⟩, st)

/-- The draft `calculate_match_score` — the duplicated copy, translated
from `advanced_ai_systems_draft.py` lines 354–385. -/
def calculate_match_score (st : DraftState) (f : FreelancerData) (p : ProjectData) :
    ℚ × DraftState :=
  let fs := extract_features st f p
  let total :=
    fs.2.feature_weights.foldl (fun acc kw => acc + featuresGet fs.1 kw.1 * kw.2) 0
  (max 0 (min 1 total), fs.2)

/-- The draft `find_matches_for_project(self, project_id, max_matches=10)`:
`[]` when the id is not a `projects_db` key; otherwise build a rounded
match result per stored freelancer, sort by `match_score` descending,
store the cut list into `matches_db`, return it.  `now` is the
`datetime.utcnow().isoformat()` timestamp. -/
def find_matches_for_project (st : DraftState) (project_id : String)
    (now : String) (max_matches : Nat := 10) : List DraftMatch × DraftState :=
  match alookup st.projects_db project_id with
  | none => ([], st)
  | some project_data =>
      let results := st.freelancers_db.map (fun fp =>
        let features := (extract_features st fp.2 project_data).1
        let match_score := (calculate_match_score st fp.2 project_data).1
        ({ freelancer_id := fp.1,
           match_score := pyRound3 match_score,
           skill_similarity := pyRound3 features.skill_similarity,
           experience_match := pyRound3 features.experience_match,
           budget_compatibility := pyRound3 features.budget_compatibility,
           success_prediction := pyRound3 features.success_prediction,
           freelancer_profile :=
             ⟨fp.2.name.getD "Unknown", fp.2.skills.getD [],
              fp.2.experience_years.getD 0, fp.2.hourly_rate.getD 0,
              fp.2.average_rating.getD 0, fp.2.completion_rate.getD 0⟩ } : DraftMatch))
      let sorted := sortByDesc (·.match_score) results
      let cut := sorted.take max_matches
      let st2 :=
        { st with matches_db := aset st.matches_db project_id ⟨project_id, cut, now⟩ }
      (cut, st2)

end AdvDraft

/-! ## The project matching engine (`src/src/project_matching.py`) -/

namespace PM

/-- The TF-IDF vectorizer of `ProjectMatchingEngine`: `textSim a b` is
`cosine_similarity(transform([a]), transform([b]))`; `none` models the
exception a call on the unfitted vectorizer raises (caught with `0.5`). -/
structure PMOracle where
  textSim : String → String → Option ℚ

/-- A project dict as consumed by `extract_project_features`. -/
structure PMProject where
  id : Option String := none
  title : Option String := none
  description : Option String := none
  required_skills : Option (List String) := none
  budget_range : Option ℚ := none
  duration_weeks : Option ℚ := none
  complexity_level : Option String := none
  project_type : Option String := none
  ai_model_type : Option String := none
  industry : Option String := none
  team_size : Option ℚ := none

/-- A user dict as consumed by `extract_user_features`. -/
structure PMUser where
  id : Option String := none
  name : Option String := none
  skills : Option (List String) := none
  experience_years : Option ℚ := none
  specializations : Option (List String) := none
  preferred_project_types : Option (List String) := none
  availability_hours : Option ℚ := none
  hourly_rate : Option ℚ := none
  rating : Option ℚ := none
  completed_projects : Option ℚ := none
  preferred_industries : Option (List String) := none
  location : Option String := none
  languages : Option (List String) := none

/-- The features dict `extract_project_features` returns. -/
structure PMProjectFeatures where
  title : String
  description : String
  required_skills : List String
  budget_range : ℚ
  duration_weeks : ℚ
  complexity_level : String
  project_type : String
  ai_model_type : Option String
  industry : String
  team_size : ℚ
  combined_text : String

/-- The features dict `extract_user_features` returns. -/
structure PMUserFeatures where
  skills : List String
  experience_years : ℚ
  specializations : List String
  preferred_project_types : List String
  availability_hours : ℚ
  hourly_rate : ℚ
  rating : ℚ
  completed_projects : ℚ
  preferred_industries : List String
  location : String
  languages : List String
  combined_text : String

/-- `extract_project_features(self, project)`. -/
def extract_project_features (p : PMProject) : PMProjectFeatures :=
  let title := p.title.getD ""
  let description := p.description.getD ""
  let required_skills := p.required_skills.getD []
  let project_type := p.project_type.getD "general"
  let industry := p.industry.getD "technology"
  { title := title,
    description := description,
    required_skills := required_skills,
    budget_range := p.budget_range.getD 0,
    duration_weeks := p.duration_weeks.getD 0,
    complexity_level := p.complexity_level.getD "medium",
    project_type := project_type,
    ai_model_type := p.ai_model_type,
    industry := industry,
    team_size := p.team_size.getD 1,
    combined_text := title ++ " " ++ description ++ " "
      ++ String.intercalate " " required_skills ++ " " ++ project_type ++ " " ++ industry }

/-- `extract_user_features(self, user)`. -/
def extract_user_features (u : PMUser) : PMUserFeatures :=
  let skills := u.skills.getD []
  let specializations := u.specializations.getD []
  let preferred_project_types := u.preferred_project_types.getD []
  let preferred_industries := u.preferred_industries.getD []
  { skills := skills,
    experience_years := u.experience_years.getD 0,
    specializations := specializations,
    preferred_project_types := preferred_project_types,
    availability_hours := u.availability_hours.getD 40,
    hourly_rate := u.hourly_rate.getD 0,
    rating := u.rating.getD 0,
    completed_projects := u.completed_projects.getD 0,
    preferred_industries := preferred_industries,
    location := u.location.getD "",
    languages := u.languages.getD ["english"],
    combined_text := String.intercalate " " skills ++ " "
      ++ String.intercalate " " specializations ++ " "
      ++ String.intercalate " " preferred_project_types ++ " "
      ++ String.intercalate " " preferred_industries }

/-- `calculate_skill_match_score`: `0.6 * |∩|/|∪| + 0.4 * |∩|/|P|` over
the lowercased skill sets, `0.0` when either raw list is empty. -/
def calculate_skill_match_score (project_skills user_skills : List String) : ℚ :=
  if project_skills = [] ∨ user_skills = [] then 0
  else
    let ps := (project_skills.map (·.toLower)).dedup
    let us := (user_skills.map (·.toLower)).dedup
    let inter := ps.filter (fun s => us.contains s)
    let uni := (ps ++ us).dedup
    if uni.length = 0 then 0
    else
      (6/10) * ((inter.length : ℚ) / uni.length)
        + (4/10) * ((inter.length : ℚ) / ps.length)

/-- `calculate_budget_compatibility`: banded fit of
`user_rate * 40 * duration_weeks` against the budget. -/
def calculate_budget_compatibility (project_budget user_rate duration_weeks : ℚ) : ℚ :=
  if project_budget ≤ 0 ∨ user_rate ≤ 0 then 1/2
  else
    let estimated_cost := user_rate * 40 * duration_weeks
    if estimated_cost ≤ project_budget then 1
    else if estimated_cost ≤ project_budget * (12/10) then 8/10
    else if estimated_cost ≤ project_budget * (15/10) then 1/2
    else 2/10

/-- `calculate_experience_match`: banded fit against the
complexity-level experience table (unknown level defaults to `2`). -/
def calculate_experience_match (project_complexity : String) (user_experience : ℚ) : ℚ :=
  let lc := project_complexity.toLower
  let required : ℚ :=
    if lc = "beginner" then 0
    else if lc = "intermediate" then 2
    else if lc = "advanced" then 5
    else if lc = "expert" then 8
    else 2
  if required ≤ user_experience then 1
  else if required * (7/10) ≤ user_experience then 8/10
  else if required * (5/10) ≤ user_experience then 6/10
  else 3/10

/-- One `match_result` dict of `find_best_matches`. -/
structure PMMatch where
  user_id : Option String
  user_name : String
  overall_score : ℚ
  skill_score : ℚ
  budget_score : ℚ
  experience_score : ℚ
  text_similarity : ℚ
  rating_score : ℚ
  availability_score : ℚ
  user_details : PMUserFeatures

/-- The per-user body of the `find_best_matches` loop. -/
def mkMatchResult (o : PMOracle) (pf : PMProjectFeatures) (u : PMUser) : PMMatch :=
  let uf := extract_user_features u
  let skill_score := calculate_skill_match_score pf.required_skills uf.skills
  let budget_score := calculate_budget_compatibility pf.budget_range uf.hourly_rate pf.duration_weeks
  let experience_score := calculate_experience_match pf.complexity_level uf.experience_years
  let text_similarity :=
    match o.textSim pf.combined_text uf.combined_text with
    | some q => q
    | none => 1/2
  let rating_score := if 0 < uf.rating then min (uf.rating / 5) 1 else 1/2
  let availability_score := min (uf.availability_hours / 40) 1
  let overall_score :=
    (25/100) * skill_score + (20/100) * budget_score + (15/100) * experience_score
      + (15/100) * text_similarity + (15/100) * rating_score
      + (10/100) * availability_score
  { user_id := u.id,
    user_name := u.name.getD "Unknown",
    overall_score := overall_score,
    skill_score := skill_score,
    budget_score := budget_score,
    experience_score := experience_score,
    text_similarity := text_similarity,
    rating_score := rating_score,
    availability_score := availability_score,
    user_details := uf }

/-- `find_best_matches(self, project, users, top_k=10)`: score every
user, sort by `overall_score` descending, return the first `top_k`. -/
def find_best_matches (o : PMOracle) (project : PMProject) (users : List PMUser)
    (top_k : Nat := 10) : List PMMatch :=
  let pf := extract_project_features project
  (sortByDesc (·.overall_score) (users.map (mkMatchResult o pf))).take top_k

end PM

/-! ## The performance optimizer (`src/src/performance_optimizer.py`)

`np.random.normal(mu, sigma)` draws are modelled by an explicit noise
source `ns : Nat → ℚ → ℚ → ℚ` applied at an explicit call counter, which
every random call increments. -/

namespace PerfOpt

/-- A draw source for `np.random.normal`. -/
abbrev NoiseSrc : Type := Nat → ℚ → ℚ → ℚ

/-- A performance-data point: metric name to value. -/
abbrev DataPoint : Type := List (String × ℚ)

/-- The `hyperparameter_ranges` table from `__init__`. -/
def hyperparameter_ranges (component : String) : Option (List (String × List ℚ)) :=
  if component = "matching_engine" then
    some [("skill_similarity_weight", [2/10, 3/10, 35/100, 4/10, 45/100]),
          ("experience_weight", [15/100, 2/10, 25/100, 3/10, 35/100]),
          ("budget_weight", [15/100, 2/10, 25/100, 3/10]),
          ("success_prediction_weight", [5/100, 1/10, 15/100, 2/10])]
  else if component = "authentication" then
    some [("token_expiry_hours", [1, 2, 4, 8, 12, 24]),
          ("password_min_length", [6, 8, 10, 12]),
          ("session_timeout_minutes", [15, 30, 60, 120])]
  else if component = "api_performance" then
    some [("request_timeout_seconds", [5, 10, 15, 30]),
          ("max_concurrent_requests", [10, 20, 50, 100]),
          ("cache_ttl_minutes", [5, 10, 15, 30, 60])]
  else none

/-- The `best_parameters` table from `__init__`. -/
def best_parameters_init : List (String × List (String × ℚ)) :=
  [("matching_engine",
    [("skill_similarity_weight", 35/100), ("experience_weight", 25/100),
     ("budget_weight", 2/10), ("success_prediction_weight", 5/100)]),
   ("authentication",
    [("token_expiry_hours", 8), ("password_min_length", 8),
     ("session_timeout_minutes", 60)]),
   ("api_performance",
    [("request_timeout_seconds", 15), ("max_concurrent_requests", 50),
     ("cache_ttl_minutes", 15)])]

/-- One stored `optimization_results` entry. -/
structure OptResult where
  component : String
  old_params : List (String × ℚ)
  new_params : List (String × ℚ)
  performance_improvement : ℚ
  timestamp : String

/-- The optimizer's mutable state (the fields `optimize_hyperparameters`
touches). -/
structure OptimizerState where
  best_parameters : List (String × List (String × ℚ))
  optimization_results : List (String × OptResult)

/-- The `(key, mean, std)` rows of a synthetic data point for a
component. -/
def syntheticKeys (component : String) : List (String × ℚ × ℚ) :=
  if component = "matching_engine" then
    [("accuracy", 8/10, 1/10), ("response_time", 300, 100),
     ("user_satisfaction", 4, 1/2), ("match_quality", 75/100, 15/100)]
  else if component = "authentication" then
    [("login_success_rate", 95/100, 5/100), ("security_score", 9/10, 1/10),
     ("user_experience", 42/10, 3/10), ("response_time", 200, 50)]
  else if component = "api_performance" then
    [("throughput", 100, 20), ("error_rate", 2/100, 1/100),
     ("response_time", 250, 75), ("resource_efficiency", 8/10, 1/10)]
  else
    [("performance_score", 8/10, 1/10), ("response_time", 300, 100)]

/-- The range clamp applied to a generated metric, keyed on substrings
of the metric name. -/
def clampMetric (key : String) (v : ℚ) : ℚ :=
  if subStr "rate".data key.data || subStr "accuracy".data key.data
      || subStr "score".data key.data || subStr "efficiency".data key.data then
    max 0 (min 1 v)
  else if subStr "satisfaction".data key.data || subStr "experience".data key.data then
    max 1 (min 5 v)
  else if subStr "time".data key.data then max 50 v
  else v

/-- Generate one synthetic data point, consuming one draw per metric. -/
def genPoint (component : String) (ns : NoiseSrc) (i : Nat) : DataPoint × Nat :=
  (syntheticKeys component).foldl
    (fun acc row =>
      let v := ns acc.2 row.2.1 row.2.2
      (acc.1 ++ [(row.1, clampMetric row.1 v)], acc.2 + 1))
    ([], i)

/-- `_generate_synthetic_performance_data`: 100 synthetic points. -/
def generate_synthetic_performance_data (component : String) (ns : NoiseSrc) (i : Nat) :
    List DataPoint × Nat :=
  (List.range 100).foldl
    (fun acc _ =>
      let p := genPoint component ns acc.2
      (acc.1 ++ [p.1], p.2))
    ([], i)

/-- `_simulate_performance_score(self, component_name, parameters,
performance_data)`: a base score bumped by parameter-range checks plus
one noise draw, clamped to `[0, 1]`.  The `performance_data` argument is
never read. -/
def simulate_performance_score (component : String) (parameters : List (String × ℚ))
    (performance_data : List DataPoint) (ns : NoiseSrc) (i : Nat) : ℚ × Nat :=
  let base : ℚ := 7/10
  let base :=
    if component = "matching_engine" then
      let skill_weight := (alookup parameters "skill_similarity_weight").getD (35/100)
      let base := if 3/10 ≤ skill_weight ∧ skill_weight ≤ 4/10 then base + 1/10 else base
      let total_weight :=
        (alookup parameters "skill_similarity_weight").getD (35/100)
          + (alookup parameters "experience_weight").getD (25/100)
          + (alookup parameters "budget_weight").getD (2/10)
          + (alookup parameters "success_prediction_weight").getD (5/100)
      if |total_weight - 85/100| < 5/100 then base + 5/100 else base
    else if component = "authentication" then
      let pwd_length := (alookup parameters "password_min_length").getD 8
      let base := if 8 ≤ pwd_length ∧ pwd_length ≤ 12 then base + 1/10 else base
      let session_timeout := (alookup parameters "session_timeout_minutes").getD 60
      if 30 ≤ session_timeout ∧ session_timeout ≤ 120 then base + 5/100 else base
    else if component = "api_performance" then
      let timeout := (alookup parameters "request_timeout_seconds").getD 15
      let base := if 10 ≤ timeout ∧ timeout ≤ 20 then base + 1/10 else base
      let concurrency := (alookup parameters "max_concurrent_requests").getD 50
      if 20 ≤ concurrency ∧ concurrency ≤ 100 then base + 5/100 else base
    else base
  let noise := ns i 0 (5/100)
  (max 0 (min 1 (base + noise)), i + 1)

/-- The `if not performance_data:` substitution at the top of the search
loop of `optimize_hyperparameters`: a missing or empty (falsy) argument
is replaced by freshly generated synthetic data. -/
def effectivePerformanceData (component : String) (performance_data : Option (List DataPoint))
    (ns : NoiseSrc) (i : Nat) : List DataPoint × Nat :=
  match performance_data with
  | none => generate_synthetic_performance_data component ns i
  | some l =>
      if l.isEmpty then generate_synthetic_performance_data component ns i
      else (l, i)

/-- `optimize_hyperparameters(self, component_name, performance_data=None)`:
grid-walk each parameter range around `current_params`, keep the
strictly best simulated score, store and return the winner.  `now` is
the `datetime.utcnow().isoformat()` timestamp. -/
def optimize_hyperparameters (st : OptimizerState) (component : String)
    (performance_data : Option (List DataPoint)) (ns : NoiseSrc) (i : Nat)
    (now : String) : List (String × ℚ) × OptimizerState × Nat :=
  match hyperparameter_ranges component with
  | none => ((alookup st.best_parameters component).getD [], st, i)
  | some param_ranges =>
      let current_params := (alookup st.best_parameters component).getD []
      let pd := effectivePerformanceData component performance_data ns i
      let init : ℚ × List (String × ℚ) × Nat := (0, current_params, pd.2)
      let best :=
        param_ranges.foldl
          (fun acc pr =>
            pr.2.foldl
              (fun acc2 value =>
                let test_params := aset current_params pr.1 value
                let sc := simulate_performance_score component test_params pd.1 ns acc2.2.2
                if acc2.1 < sc.1 then (sc.1, test_params, sc.2)
                else (acc2.1, acc2.2.1, sc.2))
              acc)
          init
      let best_params := best.2.1
      let result : OptResult :=
        ⟨component, current_params, best_params, best.1, now⟩
      (best_params,
       { best_parameters := aset st.best_parameters component best_params,
         optimization_results := aset st.optimization_results component result },
       best.2.2)

end PerfOpt

/-! ## Concrete fixtures used by counterexamples and witnesses -/

/-- An engine whose ML components raise on every call, as the blueprint
engine's unfitted vectorizer and scaler do. -/
def unfitOracle : MLOracle :=
  ⟨fun _ _ => none, fun _ _ _ _ _ => none⟩

/-- The claimed (unclamped) weighted sum `Σ weight_i * feature_i`, as
the spec words it, accumulated over `feature_weights.items()` like the
code's loop but without the final clamp.  A spec-side definition, to be
compared with `AdvSrc.calculate_match_score`. -/
def specWeightedSum (st : AdvSrc.EngineState) (f : FreelancerData) (p : ProjectData) : ℚ :=
  (AdvSrc.extract_features st f p).2.feature_weights.foldl
    (fun acc kw => acc + featuresGet (AdvSrc.extract_features st f p).1 kw.1 * kw.2) 0

/-- A freelancer record with a negative `experience_years`, no skills. -/
def cexFreelancer : FreelancerData := { experience_years := some (-100) }

/-- An empty project record. -/
def cexProject : ProjectData := {}

/-- A project-matching engine whose vectorizer raises (it is never
fitted in `__init__`). -/
def pmOracleFix : PM.PMOracle := ⟨fun _ _ => none⟩

/-- An empty project dict. -/
def pmProjectFix : PM.PMProject := {}

/-- An empty user dict. -/
def pmUserFix : PM.PMUser := {}

/-! ## Sorting lemmas for the descending stable sort -/

theorem insertByDesc_perm {α : Type} (key : α → ℚ) (x : α) (l : List α) :
    List.Perm (insertByDesc key x l) (x :: l) := by
  induction l with
  | nil => simp [insertByDesc]
  | cons y ys ih =>
      unfold insertByDesc
      split
      · exact List.Perm.refl _
      · exact (ih.cons y).trans (List.Perm.swap x y ys)

theorem sortByDesc_perm {α : Type} (key : α → ℚ) (l : List α) :
    List.Perm (sortByDesc key l) l := by
  induction l with
  | nil => simp [sortByDesc]
  | cons x xs ih =>
      exact (insertByDesc_perm key x (sortByDesc key xs)).trans (ih.cons x)

theorem sorted_insertByDesc {α : Type} (key : α → ℚ) (x : α) (l : List α)
    (h : l.Sorted (fun a b => key b ≤ key a)) :
    (insertByDesc key x l).Sorted (fun a b => key b ≤ key a) := by
  induction l with
  | nil => simp [insertByDesc]
  | cons y ys ih =>
      rw [List.sorted_cons] at h
      unfold insertByDesc
      split
      · rename_i hlt
        rw [List.sorted_cons]
        refine ⟨?_, List.sorted_cons.mpr h⟩
        intro b hb
        rcases List.mem_cons.mp hb with rfl | hb
        · exact le_of_lt hlt
        · exact (h.1 b hb).trans (le_of_lt hlt)
      · rename_i hnlt
        rw [List.sorted_cons]
        refine ⟨?_, ih h.2⟩
        intro b hb
        rcases List.mem_cons.mp ((insertByDesc_perm key x ys).mem_iff.mp hb) with rfl | hb
        · exact le_of_not_lt hnlt
        · exact h.1 b hb

theorem sorted_sortByDesc {α : Type} (key : α → ℚ) (l : List α) :
    (sortByDesc key l).Sorted (fun a b => key b ≤ key a) := by
  induction l with
  | nil => simp [sortByDesc]
  | cons x xs ih => exact sorted_insertByDesc key x (sortByDesc key xs) ih

/-! ## Feature-dict lookup lemmas -/

theorem featuresGet_sk (F : Features) : featuresGet F "skill_similarity" = F.skill_similarity := rfl

theorem featuresGet_ex (F : Features) : featuresGet F "experience_match" = F.experience_match := by
  unfold featuresGet
  rw [if_neg (by decide), if_pos rfl]

theorem featuresGet_bu (F : Features) : featuresGet F "budget_compatibility" = F.budget_compatibility := by
  unfold featuresGet
  rw [if_neg (by decide), if_neg (by decide), if_pos rfl]

theorem featuresGet_av (F : Features) : featuresGet F "availability_match" = F.availability_match := by
  unfold featuresGet
  rw [if_neg (by decide), if_neg (by decide), if_neg (by decide), if_pos rfl]

theorem featuresGet_lo (F : Features) : featuresGet F "location_preference" = F.location_preference := by
  unfold featuresGet
  rw [if_neg (by decide), if_neg (by decide), if_neg (by decide), if_neg (by decide), if_pos rfl]

theorem featuresGet_su (F : Features) : featuresGet F "success_prediction" = F.success_prediction := by
  unfold featuresGet
  rw [if_neg (by decide), if_neg (by decide), if_neg (by decide), if_neg (by decide),
    if_neg (by decide), if_pos rfl]

/-- `extract_features` never writes the engine state. -/
theorem extract_features_state (st : AdvSrc.EngineState) (f : FreelancerData) (p : ProjectData) :
    (AdvSrc.extract_features st f p).2 = st := by
  unfold AdvSrc.extract_features
  dsimp only
  split <;> rfl

/-- The draft `extract_features` never writes the engine state. -/
theorem draft_extract_features_state (st : AdvDraft.DraftState) (f : FreelancerData) (p : ProjectData) :
    (AdvDraft.extract_features st f p).2 = st := by
  unfold AdvDraft.extract_features
  dsimp only
  split <;> rfl

/-! ## Claims C1, C3, C4, C9 — the match-score computation -/

/-- C1 counterexample.  The claim says `calculate_match_score` returns
`Σ weight_i * feature_i`; on a freelancer record with
`experience_years = -100` (and the engine's unfitted ML state) the
weighted sum is `-12.23` but the function returns the clamped `0`. -/
theorem C1_counterexample :
    (AdvSrc.calculate_match_score (AdvSrc.initState unfitOracle) cexFreelancer cexProject).1 = 0
      ∧ specWeightedSum (AdvSrc.initState unfitOracle) cexFreelancer cexProject = -1223/100
      ∧ (AdvSrc.calculate_match_score (AdvSrc.initState unfitOracle) cexFreelancer cexProject).1
          ≠ specWeightedSum (AdvSrc.initState unfitOracle) cexFreelancer cexProject := by
  refine ⟨?_, ?_, ?_⟩
  · unfold AdvSrc.calculate_match_score AdvSrc.extract_features AdvSrc.initState
      AdvSrc.feature_weights_init unfitOracle cexFreelancer cexProject
    norm_num [min_def, max_def, featuresGet_sk, featuresGet_ex, featuresGet_bu,
      featuresGet_av, featuresGet_lo, featuresGet_su,
      show String.intercalate " " ([] : List String) = "" from rfl]
  · unfold specWeightedSum AdvSrc.extract_features AdvSrc.initState
      AdvSrc.feature_weights_init unfitOracle cexFreelancer cexProject
    norm_num [min_def, max_def, featuresGet_sk, featuresGet_ex, featuresGet_bu,
      featuresGet_av, featuresGet_lo, featuresGet_su,
      show String.intercalate " " ([] : List String) = "" from rfl]
  · unfold specWeightedSum AdvSrc.calculate_match_score AdvSrc.extract_features AdvSrc.initState
      AdvSrc.feature_weights_init unfitOracle cexFreelancer cexProject
    norm_num [min_def, max_def, featuresGet_sk, featuresGet_ex, featuresGet_bu,
      featuresGet_av, featuresGet_lo, featuresGet_su,
      show String.intercalate " " ([] : List String) = "" from rfl]

/-- C1 (amended): for every engine construction and every freelancer and
project record, `calculate_match_score` returns the weighted sum
`Σ weight_i * feature_i` of the extracted features under the fixed
weight table `{skill_similarity: 0.35, experience_match: 0.25,
budget_compatibility: 0.20, availability_match: 0.10,
location_preference: 0.05, success_prediction: 0.05}` set at
construction, *clamped to `[0, 1]` by `max(0.0, min(1.0, ·))`*. -/
theorem C1_match_score_clamped_weighted_sum (o : MLOracle) (f : FreelancerData) (p : ProjectData) :
    (AdvSrc.calculate_match_score (AdvSrc.initState o) f p).1
      = max 0 (min 1
          ((35/100) * (AdvSrc.extract_features (AdvSrc.initState o) f p).1.skill_similarity
            + (25/100) * (AdvSrc.extract_features (AdvSrc.initState o) f p).1.experience_match
            + (20/100) * (AdvSrc.extract_features (AdvSrc.initState o) f p).1.budget_compatibility
            + (10/100) * (AdvSrc.extract_features (AdvSrc.initState o) f p).1.availability_match
            + (5/100) * (AdvSrc.extract_features (AdvSrc.initState o) f p).1.location_preference
            + (5/100) * (AdvSrc.extract_features (AdvSrc.initState o) f p).1.success_prediction)) := by
  unfold AdvSrc.calculate_match_score
  dsimp only
  rw [extract_features_state]
  unfold AdvSrc.initState AdvSrc.feature_weights_init
  simp only [List.foldl, featuresGet_sk, featuresGet_ex, featuresGet_bu,
    featuresGet_av, featuresGet_lo, featuresGet_su]
  ring_nf

/-- C3: the duplicated copies of the matching-score computation are
equivalent.  With the same feature-weight table and the same fitted ML
state, the draft engine's `calculate_match_score` and the blueprint
engine's return the same score on every pair of freelancer and project
records — and both `__init__` methods install the identical weight
table. -/
theorem C3_duplicate_engines_equivalent :
    (∀ (w : List (String × ℚ)) (o : MLOracle) (fdb : List (String × FreelancerData))
       (pdb : List (String × ProjectData)) (mdb : List (String × AdvDraft.StoredMatches))
       (f : FreelancerData) (p : ProjectData),
      (AdvDraft.calculate_match_score ⟨w, o, fdb, pdb, mdb⟩ f p).1
        = (AdvSrc.calculate_match_score ⟨w, o⟩ f p).1)
      ∧ AdvDraft.feature_weights_init = AdvSrc.feature_weights_init := by
  constructor
  · intro w o fdb pdb mdb f p
    unfold AdvDraft.calculate_match_score AdvSrc.calculate_match_score
      AdvDraft.extract_features AdvSrc.extract_features
    dsimp only
    split <;> rfl
  · rfl

/-- C4: the matching-score computation is pure.  The call leaves the
engine state unchanged, and two runs on equal engine states and equal
inputs return equal results. -/
theorem C4_match_score_pure :
    (∀ (st : AdvSrc.EngineState) (f : FreelancerData) (p : ProjectData),
      (AdvSrc.calculate_match_score st f p).2 = st)
      ∧ (∀ (st1 st2 : AdvSrc.EngineState) (f1 f2 : FreelancerData) (p1 p2 : ProjectData),
          st1 = st2 → f1 = f2 → p1 = p2 →
          AdvSrc.calculate_match_score st1 f1 p1 = AdvSrc.calculate_match_score st2 f2 p2) := by
  constructor
  · intro st f p
    unfold AdvSrc.calculate_match_score
    dsimp only
    rw [extract_features_state]
  · intro st1 st2 f1 f2 p1 p2 h1 h2 h3
    rw [h1, h2, h3]

/-- C4 witness at a concrete engine state and concrete records. -/
theorem C4_witness :
    (AdvSrc.calculate_match_score (AdvSrc.initState unfitOracle) cexFreelancer cexProject).2
      = AdvSrc.initState unfitOracle
      ∧ AdvSrc.calculate_match_score (AdvSrc.initState unfitOracle) cexFreelancer cexProject
          = AdvSrc.calculate_match_score (AdvSrc.initState unfitOracle) cexFreelancer cexProject :=
  ⟨C4_match_score_pure.1 (AdvSrc.initState unfitOracle) cexFreelancer cexProject,
   C4_match_score_pure.2 (AdvSrc.initState unfitOracle) (AdvSrc.initState unfitOracle)
     cexFreelancer cexFreelancer cexProject cexProject rfl rfl rfl⟩

/-- C9: on every engine state and every pair of records, both copies of
`calculate_match_score` return a value in `[0, 1]` (the weighted sum is
clamped by `max(0.0, min(1.0, ·))`; the exception paths inside
`extract_features` are modelled and end in default feature values, so no
exception escapes the call). -/
theorem C9_match_score_bounded :
    (∀ (st : AdvSrc.EngineState) (f : FreelancerData) (p : ProjectData),
      0 ≤ (AdvSrc.calculate_match_score st f p).1
        ∧ (AdvSrc.calculate_match_score st f p).1 ≤ 1)
      ∧ (∀ (st : AdvDraft.DraftState) (f : FreelancerData) (p : ProjectData),
          0 ≤ (AdvDraft.calculate_match_score st f p).1
            ∧ (AdvDraft.calculate_match_score st f p).1 ≤ 1) := by
  constructor
  · intro st f p
    unfold AdvSrc.calculate_match_score
    dsimp only
    exact ⟨le_max_left 0 _, max_le (by norm_num) (min_le_left 1 _)⟩
  · intro st f p
    unfold AdvDraft.calculate_match_score
    dsimp only
    exact ⟨le_max_left 0 _, max_le (by norm_num) (min_le_left 1 _)⟩

/-! ## Claim C6 — the synthetic optimizer -/

/-- C6: `optimize_hyperparameters` substitutes freshly generated
synthetic data when `performance_data=None`, and the candidate score
`_simulate_performance_score` computes is independent of the
`performance_data` argument (same parameters and same noise draws give
the same score for any two data sets). -/
theorem C6_synthetic_optimizer :
    (∀ (c : String) (ns : PerfOpt.NoiseSrc) (i : Nat),
      PerfOpt.effectivePerformanceData c none ns i
        = PerfOpt.generate_synthetic_performance_data c ns i)
      ∧ (∀ (c : String) (params : List (String × ℚ)) (d1 d2 : List PerfOpt.DataPoint)
           (ns : PerfOpt.NoiseSrc) (i : Nat),
          PerfOpt.simulate_performance_score c params d1 ns i
            = PerfOpt.simulate_performance_score c params d2 ns i) :=
  ⟨fun _ _ _ => rfl, fun _ _ _ _ _ _ => rfl⟩

/-! ## Claim C2 — `ProjectMatchingEngine.find_best_matches` -/

/-- C2: `find_best_matches` scores each freelancer-project pair with the
fixed combination `0.25*skill + 0.20*budget + 0.15*experience +
0.15*text + 0.15*rating + 0.10*availability` over the heuristic scores,
and returns the matches in non-increasing `overall_score` order with at
most `top_k` entries, every entry being the scored result of one of the
input users. -/
theorem C2_find_best_matches_scored_sorted_topk (o : PM.PMOracle) (project : PM.PMProject)
    (users : List PM.PMUser) (k : Nat) :
    (PM.find_best_matches o project users k).Sorted
        (fun a b => b.overall_score ≤ a.overall_score)
      ∧ (PM.find_best_matches o project users k).length ≤ k
      ∧ ∀ m ∈ PM.find_best_matches o project users k,
          (∃ u ∈ users, m = PM.mkMatchResult o (PM.extract_project_features project) u)
            ∧ m.overall_score
                = (25/100) * m.skill_score + (20/100) * m.budget_score
                  + (15/100) * m.experience_score + (15/100) * m.text_similarity
                  + (15/100) * m.rating_score + (10/100) * m.availability_score := by
  refine ⟨?_, ?_, ?_⟩
  · unfold PM.find_best_matches
    exact (sorted_sortByDesc _ _).sublist (List.take_sublist _ _)
  · unfold PM.find_best_matches
    rw [List.length_take]
    exact min_le_left _ _
  · intro m hm
    unfold PM.find_best_matches at hm
    have hm2 := List.mem_of_mem_take hm
    have hm3 := (sortByDesc_perm (fun x : PM.PMMatch => x.overall_score) _).mem_iff.mp hm2
    obtain ⟨u, hu, heq⟩ := List.mem_map.mp hm3
    refine ⟨⟨u, hu, heq.symm⟩, ?_⟩
    rw [← heq]
    rfl

/-- C2 witness: the theorem applied to a singleton user list, with the
membership hypothesis discharged by evaluation. -/
theorem C2_witness :
    (∃ u ∈ [pmUserFix],
        PM.mkMatchResult pmOracleFix (PM.extract_project_features pmProjectFix) pmUserFix
          = PM.mkMatchResult pmOracleFix (PM.extract_project_features pmProjectFix) u)
      ∧ (PM.mkMatchResult pmOracleFix (PM.extract_project_features pmProjectFix) pmUserFix).overall_score
          = (25/100) * (PM.mkMatchResult pmOracleFix (PM.extract_project_features pmProjectFix) pmUserFix).skill_score
            + (20/100) * (PM.mkMatchResult pmOracleFix (PM.extract_project_features pmProjectFix) pmUserFix).budget_score
            + (15/100) * (PM.mkMatchResult pmOracleFix (PM.extract_project_features pmProjectFix) pmUserFix).experience_score
            + (15/100) * (PM.mkMatchResult pmOracleFix (PM.extract_project_features pmProjectFix) pmUserFix).text_similarity
            + (15/100) * (PM.mkMatchResult pmOracleFix (PM.extract_project_features pmProjectFix) pmUserFix).rating_score
            + (10/100) * (PM.mkMatchResult pmOracleFix (PM.extract_project_features pmProjectFix) pmUserFix).availability_score :=
  (C2_find_best_matches_scored_sorted_topk pmOracleFix pmProjectFix [pmUserFix] 1).2.2
    (PM.mkMatchResult pmOracleFix (PM.extract_project_features pmProjectFix) pmUserFix)
    (List.mem_singleton.mpr rfl)

/-! ## Claim C5 — `_evaluate_conditions` -/

theorem evalLoop_true_iff (ctx : PyObj) (l : List (String × PyVal)) :
    evalConditionsLoop ctx l = some true
      ↔ ∀ kv ∈ l, ∃ av, ctx.lookup kv.1 = some av ∧ checkCondition av kv.2 = some true := by
  induction l with
  | nil => simp [evalConditionsLoop]
  | cons kv rest ih =>
      obtain ⟨k, cv⟩ := kv
      rw [List.forall_mem_cons]
      unfold evalConditionsLoop
      cases hl : ctx.lookup k with
      | none =>
          dsimp only
          constructor
          · intro h
            exact absurd h (by simp)
          · intro h
            exfalso
            obtain ⟨av, hav, _⟩ := h.1
            exact Option.noConfusion hav
      | some av =>
          dsimp only
          cases hc : checkCondition av cv with
          | none =>
              dsimp only
              constructor
              · intro h
                exact absurd h (by simp)
              · intro h
                exfalso
                obtain ⟨av2, hav2, hcc⟩ := h.1
                cases hav2
                rw [hc] at hcc
                exact Option.noConfusion hcc
          | some b =>
              cases b with
              | false =>
                  dsimp only
                  constructor
                  · intro h
                    exact absurd h (by simp)
                  · intro h
                    exfalso
                    obtain ⟨av2, hav2, hcc⟩ := h.1
                    cases hav2
                    rw [hc] at hcc
                    have hfb : (false : Bool) = true := Option.some.inj hcc
                    exact Bool.noConfusion hfb
              | true =>
                  dsimp only
                  rw [ih]
                  constructor
                  · intro h
                    exact ⟨⟨av, rfl, hc⟩, h⟩
                  · intro h
                    exact h.2

/-- C5: `_evaluate_conditions` returns `True` iff every condition key is
present in the context and its context value passes the condition's
check (`checkCondition`: the `equals` / `greater_than` / `less_than` /
`contains` / `in` operators of a dict condition, an unrecognized
operator passing vacuously, plain equality otherwise, a comparison
`TypeError` counting as a failed check because the surrounding `try`
returns `False`); in particular a condition key missing from the
context makes the result `False`. -/
theorem C5_evaluate_conditions_iff (conditions ctx : PyObj) :
    (evaluate_conditions conditions ctx = true
      ↔ ∀ kv ∈ conditions.toPairs, ∃ av, ctx.lookup kv.1 = some av
          ∧ checkCondition av kv.2 = some true)
      ∧ (∀ (k : String) (cv : PyVal), (k, cv) ∈ conditions.toPairs →
          ctx.lookup k = none → evaluate_conditions conditions ctx = false) := by
  have hiff : evaluate_conditions conditions ctx = true
      ↔ evalConditionsLoop ctx conditions.toPairs = some true := by
    unfold evaluate_conditions
    cases h : evalConditionsLoop ctx conditions.toPairs with
    | none => simp
    | some b => cases b <;> simp
  constructor
  · rw [hiff]
    exact evalLoop_true_iff ctx conditions.toPairs
  · intro k cv hmem hnone
    rcases Bool.eq_false_or_eq_true (evaluate_conditions conditions ctx) with h | h
    · exfalso
      obtain ⟨av, hav, _⟩ :=
        ((evalLoop_true_iff ctx conditions.toPairs).mp (hiff.mp h)) (k, cv) hmem
      rw [hnone] at hav
      exact Option.noConfusion hav
    · exact h

/-- C5 witness: a satisfied single condition evaluates to `True`, and a
condition over a key missing from the context evaluates to `False`. -/
theorem C5_witness :
    evaluate_conditions (.cons "x" (.num 1) .nil) (.cons "x" (.num 1) .nil) = true
      ∧ evaluate_conditions (.cons "y" (.num 1) .nil) (.cons "x" (.num 1) .nil) = false :=
  ⟨(C5_evaluate_conditions_iff (.cons "x" (.num 1) .nil) (.cons "x" (.num 1) .nil)).1.mpr
      (fun kv hkv => by
        rw [List.mem_singleton.mp hkv]
        exact ⟨.num 1, rfl, rfl⟩),
   (C5_evaluate_conditions_iff (.cons "y" (.num 1) .nil) (.cons "x" (.num 1) .nil)).2
      "y" (.num 1) (List.mem_singleton.mpr rfl) rfl⟩

/-! ## Claim C8 — match lookup fails closed -/

/-- C8: when the project id is absent from the backing store — the ORM
`projects` table for the blueprint engine, the in-memory `projects_db`
dict for the draft engine — `find_matches_for_project` returns the
empty list (no exception path is reachable: the absence branch returns
before any other work). -/
theorem C8_find_matches_fail_closed :
    (∀ (st : AdvSrc.EngineState) (db : AdvSrc.OrmDB) (pid : String) (k : Nat),
      (∀ r ∈ db.projects, r.id ≠ pid) →
      (AdvSrc.find_matches_for_project st db pid k).1 = [])
      ∧ (∀ (st : AdvDraft.DraftState) (pid now : String) (k : Nat),
          (∀ kv ∈ st.projects_db, kv.1 ≠ pid) →
          (AdvDraft.find_matches_for_project st pid now k).1 = []) := by
  constructor
  · intro st db pid k h
    have hf : AdvSrc.findProject db pid = none := by
      unfold AdvSrc.findProject
      rw [List.find?_eq_none]
      intro x hx
      simp [h x hx]
    unfold AdvSrc.find_matches_for_project
    rw [hf]
  · intro st pid now k h
    have hf : alookup st.projects_db pid = none := by
      unfold alookup
      have hfind : st.projects_db.find? (·.1 == pid) = none := by
        rw [List.find?_eq_none]
        intro x hx
        simp [h x hx]
      rw [hfind]
      rfl
    unfold AdvDraft.find_matches_for_project
    rw [hf]

/-- C8 witness: both engines on empty stores and a fresh project id. -/
theorem C8_witness :
    (AdvSrc.find_matches_for_project (AdvSrc.initState unfitOracle) ⟨[], [], []⟩ "p1" 10).1 = []
      ∧ (AdvDraft.find_matches_for_project
          ⟨AdvDraft.feature_weights_init, unfitOracle, [], [], []⟩ "p1" "t" 10).1 = [] :=
  ⟨C8_find_matches_fail_closed.1 (AdvSrc.initState unfitOracle) ⟨[], [], []⟩ "p1" 10
      (fun r hr => absurd hr (List.not_mem_nil r)),
   C8_find_matches_fail_closed.2 ⟨AdvDraft.feature_weights_init, unfitOracle, [], [], []⟩
      "p1" "t" 10 (fun kv hkv => absurd hkv (List.not_mem_nil kv))⟩

/-! ## JSON round-trip: string and number lemmas -/

theorem hexVal_hexDig : ∀ n, n < 16 → hexVal (hexDig n) = some n := by decide

theorem charOfNat_toNat (c : Char) (h : c.toNat < 55296) : Char.ofNat c.toNat = c := by
  have hv : Nat.isValidChar c.toNat := Or.inl h
  unfold Char.ofNat
  rw [dif_pos hv]
  apply Char.ext
  simp only [Char.ofNatAux]
  apply UInt32.ext
  simp [UInt32.toNat, Char.toNat]

theorem parseStr_backslash (e ch : Char) (tail : List Char)
    (hu : e ≠ 'u') (hch : unescChar e = some ch) :
    parseStrChars ('\\' :: e :: tail)
      = (parseStrChars tail).map (fun p => (ch :: p.1, p.2)) := by
  conv_lhs => unfold parseStrChars
  rw [if_neg (by decide : ¬('\\' = '"')), if_pos rfl]
  dsimp only
  rw [if_neg hu, hch]

theorem parseStr_unicode (a b c2 d : Char) (x y z w : Nat) (tail : List Char)
    (ha : hexVal a = some x) (hb : hexVal b = some y)
    (hc : hexVal c2 = some z) (hd : hexVal d = some w) :
    parseStrChars ('\\' :: 'u' :: a :: b :: c2 :: d :: tail)
      = (parseStrChars tail).map
          (fun p => (Char.ofNat (((x * 16 + y) * 16 + z) * 16 + w) :: p.1, p.2)) := by
  conv_lhs => unfold parseStrChars
  rw [if_neg (by decide : ¬('\\' = '"')), if_pos rfl]
  dsimp only
  rw [if_pos rfl]
  rw [ha, hb, hc, hd]

theorem parseStr_escChar (c : Char) (tail : List Char) :
    parseStrChars (escChar c ++ tail)
      = (parseStrChars tail).map (fun p => (c :: p.1, p.2)) := by
  unfold escChar
  split_ifs with h1 h2 h3 h4 h5 h6 h7 h8
  · subst h1
    exact parseStr_backslash '"' '"' tail (by decide) rfl
  · subst h2
    exact parseStr_backslash '\\' '\\' tail (by decide) rfl
  · subst h3
    exact parseStr_backslash 'n' '\n' tail (by decide) rfl
  · subst h4
    exact parseStr_backslash 't' '\t' tail (by decide) rfl
  · subst h5
    exact parseStr_backslash 'r' '\r' tail (by decide) rfl
  · subst h6
    exact parseStr_backslash 'b' '\x08' tail (by decide) rfl
  · subst h7
    exact parseStr_backslash 'f' '\x0c' tail (by decide) rfl
  · have h16a : c.toNat / 16 < 16 := by omega
    have h16b : c.toNat % 16 < 16 := by omega
    rw [show ('\\' :: 'u' :: '0' :: '0' :: hexDig (c.toNat / 16) :: hexDig (c.toNat % 16) :: [])
          ++ tail
        = '\\' :: 'u' :: '0' :: '0' :: hexDig (c.toNat / 16) :: hexDig (c.toNat % 16) :: tail
      from rfl]
    rw [parseStr_unicode '0' '0' (hexDig (c.toNat / 16)) (hexDig (c.toNat % 16))
      0 0 (c.toNat / 16) (c.toNat % 16) tail (by decide) (by decide)
      (hexVal_hexDig _ h16a) (hexVal_hexDig _ h16b)]
    have hval : ((0 * 16 + 0) * 16 + c.toNat / 16) * 16 + c.toNat % 16 = c.toNat := by omega
    rw [hval, charOfNat_toNat c (by omega)]
  · show parseStrChars (c :: tail) = _
    conv_lhs => unfold parseStrChars
    rw [if_neg h1, if_neg h2]

theorem parseStr_escStr (s : List Char) (rest : List Char) :
    parseStrChars (escStr s ++ '"' :: rest) = some (s, rest) := by
  induction s with
  | nil =>
      show parseStrChars ('"' :: rest) = some ([], rest)
      unfold parseStrChars
      rw [if_pos rfl]
  | cons c cs ih =>
      show parseStrChars ((escChar c ++ escStr cs) ++ '"' :: rest) = _
      rw [List.append_assoc, parseStr_escChar, ih]
      rfl

theorem digitChar_toNat (d : Nat) (h : d < 10) : (Char.ofNat (48 + d)).toNat = 48 + d := by
  interval_cases d <;> decide

theorem digitChar_isDigit (d : Nat) (h : d < 10) : (Char.ofNat (48 + d)).isDigit = true := by
  interval_cases d <;> decide

theorem natChars_ne_nil (n : Nat) : natChars n ≠ [] := by
  unfold natChars
  split
  · simp
  · rename_i hn
    simp [Nat.digits_ne_nil_iff_ne_zero.mpr hn]

theorem natChars_all_digits (n : Nat) : ∀ c ∈ natChars n, c.isDigit = true := by
  unfold natChars
  split
  · intro c hc
    rw [List.mem_singleton.mp hc]
    decide
  · intro c hc
    simp only [List.mem_map, List.mem_reverse] at hc
    obtain ⟨d, hd, rfl⟩ := hc
    exact digitChar_isDigit d (Nat.digits_lt_base (by norm_num) hd)

theorem foldl_digits_reverse (L : List Nat) :
    List.foldl (fun a d => 10 * a + d) 0 L.reverse = Nat.ofDigits 10 L := by
  induction L with
  | nil => rfl
  | cons d tl ih =>
      rw [List.reverse_cons, List.foldl_append, ih, Nat.ofDigits_cons]
      simp
      ring

theorem foldl_digit_chars (L : List Nat) (hL : ∀ d ∈ L, d < 10) :
    ∀ a, List.foldl (fun a c => 10 * a + (c.toNat - 48)) a
        (L.map (fun d => Char.ofNat (48 + d)))
      = List.foldl (fun a d => 10 * a + d) a L := by
  induction L with
  | nil => intro a; rfl
  | cons d tl ih =>
      intro a
      simp only [List.map_cons, List.foldl_cons]
      rw [digitChar_toNat d (hL d (List.mem_cons_self d tl))]
      rw [ih (fun x hx => hL x (List.mem_cons_of_mem d hx))]
      congr 1
      omega

theorem parseNatVal_natChars (n : Nat) : parseNatVal (natChars n) = n := by
  unfold natChars parseNatVal
  split
  · rename_i h
    rw [h]
    rfl
  · rw [foldl_digit_chars _ (fun d hd => Nat.digits_lt_base (by norm_num)
      (List.mem_reverse.mp hd))]
    rw [foldl_digits_reverse, Nat.ofDigits_digits]

theorem takeWhile_append_of (p : Char → Bool) (A B : List Char)
    (hA : ∀ c ∈ A, p c = true)
    (hB : ∀ c r, B = c :: r → p c = false) :
    (A ++ B).takeWhile p = A ∧ (A ++ B).dropWhile p = B := by
  induction A with
  | nil =>
      simp only [List.nil_append]
      cases B with
      | nil => exact ⟨rfl, rfl⟩
      | cons c r =>
          rw [List.takeWhile_cons, List.dropWhile_cons, hB c r rfl]
          exact ⟨rfl, rfl⟩
  | cons a A ih =>
      have ha := hA a (List.mem_cons_self a A)
      obtain ⟨h1, h2⟩ := ih (fun c hc => hA c (List.mem_cons_of_mem a hc))
      simp only [List.cons_append, List.takeWhile_cons, List.dropWhile_cons, ha]
      simp [h1, h2]

theorem parseNumDigits_natChars (n : Nat) (rest : List Char)
    (hrest : ∀ c r, rest = c :: r → c.isDigit = false) :
    parseNumDigits (natChars n ++ rest) = some (n, rest) := by
  unfold parseNumDigits
  obtain ⟨ht, hd⟩ := takeWhile_append_of Char.isDigit (natChars n) rest
    (natChars_all_digits n) hrest
  rw [ht, hd]
  have hne : (natChars n).isEmpty = false := by
    cases h : natChars n with
    | nil => exact absurd h (natChars_ne_nil n)
    | cons c r => rfl
  simp [hne, parseNatVal_natChars]

/-! ## JSON round-trip: dict rebuild and whitespace lemmas -/

theorem keys_append : ∀ a b : PyObj, (a.append b).keys = a.keys ++ b.keys
  | .nil, b => rfl
  | .cons k v tl, b => by
      show k :: (tl.append b).keys = (k :: tl.keys) ++ b.keys
      rw [keys_append tl b]
      rfl

theorem insert_notMem : ∀ (o : PyObj) (k : String) (v : PyVal), k ∉ o.keys →
    o.insert k v = o.append (.cons k v .nil)
  | .nil, k, v, _ => rfl
  | .cons k' v' tl, k, v, h => by
      have hk : k' ≠ k := by
        intro heq
        exact h (heq ▸ List.mem_cons_self k' (PyObj.keys tl))
      show (if k' = k then _ else _) = _
      rw [if_neg hk, insert_notMem tl k v (fun hm => h (List.mem_cons_of_mem k' hm))]
      rfl

theorem append_nil : ∀ a : PyObj, a.append .nil = a
  | .nil => rfl
  | .cons k v tl => by
      show PyObj.cons k v (tl.append .nil) = _
      rw [append_nil tl]

theorem append_assoc : ∀ a b c : PyObj, (a.append b).append c = a.append (b.append c)
  | .nil, b, c => rfl
  | .cons k v tl, b, c => by
      show PyObj.cons k v ((tl.append b).append c) = PyObj.cons k v (tl.append (b.append c))
      rw [append_assoc tl b c]

theorem foldl_insert_append : ∀ (o : PyObj) (pre : PyObj), o.keys.Nodup →
    (∀ k ∈ o.keys, k ∉ pre.keys) →
    List.foldl (fun acc kv => acc.insert kv.1 kv.2) pre o.toPairs = pre.append o
  | .nil, pre, _, _ => by
      show pre = pre.append .nil
      rw [append_nil]
  | .cons k v tl, pre, hnd, hdisj => by
      have hk : k ∉ pre.keys := hdisj k (List.mem_cons_self k (PyObj.keys tl))
      show List.foldl _ (pre.insert k v) (PyObj.toPairs tl) = _
      rw [insert_notMem pre k v hk]
      rw [foldl_insert_append tl (pre.append (.cons k v .nil)) (List.Nodup.of_cons hnd) ?hd2]
      case hd2 =>
        intro k2 hk2
        rw [keys_append]
        intro hmem
        rcases List.mem_append.mp hmem with hin | hin
        · exact hdisj k2 (List.mem_cons_of_mem k hk2) hin
        · have hek : k2 = k := by simpa [PyObj.keys] using hin
          subst hek
          exact (List.nodup_cons.mp hnd).1 hk2
      rw [append_assoc]
      rfl

theorem objFromList_toPairs (o : PyObj) (h : o.keys.Nodup) : objFromList o.toPairs = o := by
  unfold objFromList
  rw [foldl_insert_append o PyObj.nil h (fun k _ hmem => List.not_mem_nil k hmem)]
  rfl

theorem wsSkip_space (cs : List Char) : wsSkip (' ' :: cs) = wsSkip cs := by
  conv_lhs => unfold wsSkip
  rw [if_pos (Or.inl rfl)]

theorem wsSkip_cons_of (c : Char) (r : List Char)
    (h1 : c ≠ ' ') (h2 : c ≠ '\t') (h3 : c ≠ '\n') (h4 : c ≠ '\r') :
    wsSkip (c :: r) = c :: r := by
  unfold wsSkip
  rw [if_neg (by simp [h1, h2, h3, h4])]

theorem isDigit_ne_ws (c : Char) (h : c.isDigit = true) :
    c ≠ ' ' ∧ c ≠ '\t' ∧ c ≠ '\n' ∧ c ≠ '\r' := by
  refine ⟨?_, ?_, ?_, ?_⟩ <;>
    (intro heq; rw [heq] at h; exact absurd h (by decide))

theorem wsSkip_dumpsV (v : PyVal) (rest : List Char) :
    wsSkip (dumpsV v ++ rest) = dumpsV v ++ rest := by
  cases v with
  | null => exact wsSkip_cons_of _ _ (by decide) (by decide) (by decide) (by decide)
  | bool b =>
      cases b <;>
        exact wsSkip_cons_of _ _ (by decide) (by decide) (by decide) (by decide)
  | str s => exact wsSkip_cons_of _ _ (by decide) (by decide) (by decide) (by decide)
  | list l => exact wsSkip_cons_of _ _ (by decide) (by decide) (by decide) (by decide)
  | obj o => exact wsSkip_cons_of _ _ (by decide) (by decide) (by decide) (by decide)
  | num n =>
      show wsSkip (intChars n ++ rest) = intChars n ++ rest
      unfold intChars
      split
      · exact wsSkip_cons_of _ _ (by decide) (by decide) (by decide) (by decide)
      · cases hnc : natChars n.toNat with
        | nil => exact absurd hnc (natChars_ne_nil n.toNat)
        | cons c cs =>
            have hdig : c.isDigit = true :=
              natChars_all_digits n.toNat c (hnc ▸ List.mem_cons_self c cs)
            obtain ⟨w1, w2, w3, w4⟩ := isDigit_ne_ws c hdig
            exact wsSkip_cons_of _ _ w1 w2 w3 w4

/-! ## JSON round-trip: parser fuel bounds and whitespace commutation -/

theorem intChars_ne_nil (n : Int) : intChars n ≠ [] := by
  unfold intChars
  split
  · simp
  · exact natChars_ne_nil n.toNat

mutual

theorem needV_le : ∀ v : PyVal, needV v ≤ (dumpsV v).length
  | .null => by simp [needV, dumpsV]
  | .bool b => by cases b <;> simp [needV, dumpsV]
  | .num n => by
      show 1 ≤ (intChars n).length
      exact List.length_pos.mpr (intChars_ne_nil n)
  | .str s => by
      show 1 ≤ ('"' :: (escStr s.data ++ ['"'])).length
      simp
  | .list l => by
      have h := needL_le l
      show 1 + needL l ≤ ('[' :: (dumpsL l ++ [']'])).length
      simp only [List.length_cons, List.length_append, List.length_singleton]
      omega
  | .obj o => by
      have h := needO_le o
      show 1 + needO o ≤ ('{' :: (dumpsO o ++ ['}'])).length
      simp only [List.length_cons, List.length_append, List.length_singleton]
      omega

theorem needL_le : ∀ l : PyList, needL l ≤ (dumpsL l).length + 1
  | .nil => by simp [needL, dumpsL]
  | .cons x .nil => by
      have h := needV_le x
      show 1 + needV x ≤ (dumpsV x).length + 1
      omega
  | .cons x (.cons y tl) => by
      have h1 := needV_le x
      have h2 := needL_le (.cons y tl)
      show 1 + max (needV x) (needL (.cons y tl))
        ≤ (dumpsV x ++ ',' :: ' ' :: dumpsL (.cons y tl)).length + 1
      simp only [List.length_append, List.length_cons]
      omega

theorem needO_le : ∀ o : PyObj, needO o ≤ (dumpsO o).length + 1
  | .nil => by simp [needO, dumpsO]
  | .cons k v .nil => by
      have h := needV_le v
      show 1 + needV v ≤ ('"' :: (escStr k.data ++ '"' :: ':' :: ' ' :: dumpsV v)).length + 1
      simp only [List.length_cons, List.length_append]
      omega
  | .cons k v (.cons k' v' tl) => by
      have h1 := needV_le v
      have h2 := needO_le (.cons k' v' tl)
      show 1 + max (needV v) (needO (.cons k' v' tl))
        ≤ ('"' :: (escStr k.data ++ '"' :: ':' :: ' ' :: dumpsV v)
            ++ ',' :: ' ' :: dumpsO (.cons k' v' tl)).length + 1
      simp only [List.length_cons, List.length_append]
      omega

end

theorem parseV_space (f : Nat) (cs : List Char) : parseV f (' ' :: cs) = parseV f cs := by
  cases f with
  | zero => rfl
  | succ f =>
      unfold parseV
      rw [wsSkip_space]

theorem parseL_space (f : Nat) (cs : List Char) : parseL f (' ' :: cs) = parseL f cs := by
  cases f with
  | zero => rfl
  | succ f =>
      unfold parseL
      rw [parseV_space]

theorem parseO_space (f : Nat) (cs : List Char) : parseO f (' ' :: cs) = parseO f cs := by
  cases f with
  | zero => rfl
  | succ f =>
      unfold parseO
      rw [wsSkip_space]

/-! ## JSON round-trip: head-character classification -/

theorem needV_pos (v : PyVal) : 1 ≤ needV v := by
  cases v <;> simp [needV]

theorem needL_pos (l : PyList) : 1 ≤ needL l := by
  cases l with
  | nil => simp [needL]
  | cons x tl => cases tl <;> simp [needL]

theorem needO_pos (o : PyObj) : 1 ≤ needO o := by
  cases o with
  | nil => simp [needO]
  | cons k v tl => cases tl <;> simp [needO]

theorem isDigit_ne_kw (c : Char) (h : c.isDigit = true) :
    c ≠ 'n' ∧ c ≠ 't' ∧ c ≠ 'f' ∧ c ≠ '"' ∧ c ≠ '[' ∧ c ≠ '{' ∧ c ≠ '-' := by
  refine ⟨?_, ?_, ?_, ?_, ?_, ?_, ?_⟩ <;>
    (intro heq; rw [heq] at h; exact absurd h (by decide))

theorem dumpsV_ne_nil (v : PyVal) : dumpsV v ≠ [] := by
  cases v with
  | null => simp [dumpsV]
  | bool b => cases b <;> simp [dumpsV]
  | num n => exact intChars_ne_nil n
  | str s => simp [dumpsV]
  | list l => simp [dumpsV]
  | obj o => simp [dumpsV]

theorem isDigit_ne_delim (c : Char) (h : c.isDigit = true) : c ≠ ']' ∧ c ≠ '}' := by
  refine ⟨?_, ?_⟩ <;> (intro heq; rw [heq] at h; exact absurd h (by decide))

theorem dumpsV_head_not_delim (v : PyVal) (c : Char) (cs : List Char)
    (h : dumpsV v = c :: cs) : c ≠ ']' ∧ c ≠ '}' := by
  cases v with
  | null =>
      injection h with h1 _
      subst h1
      exact ⟨by decide, by decide⟩
  | bool b =>
      cases b <;>
        (injection h with h1 _
         subst h1
         exact ⟨by decide, by decide⟩)
  | str s =>
      injection h with h1 _
      subst h1
      exact ⟨by decide, by decide⟩
  | list l =>
      injection h with h1 _
      subst h1
      exact ⟨by decide, by decide⟩
  | obj o =>
      injection h with h1 _
      subst h1
      exact ⟨by decide, by decide⟩
  | num n =>
      show _
      unfold dumpsV intChars at h
      split at h
      · injection h with h1 _
        subst h1
        exact ⟨by decide, by decide⟩
      · have hdig : c.isDigit = true :=
          natChars_all_digits n.toNat c (h ▸ List.mem_cons_self c cs)
        exact isDigit_ne_delim c hdig

theorem stringMk_data (s : String) : String.mk s.data = s := rfl

/-! ## JSON round-trip: the parser inverts the printer -/

mutual

theorem parseV_dumps : ∀ (v : PyVal) (fuel : Nat) (rest : List Char),
    needV v ≤ fuel → nodupKeysV v = true →
    (∀ c r2, rest = c :: r2 → c.isDigit = false) →
    parseV fuel (dumpsV v ++ rest) = some (v, rest)
  | v, 0, _, hf, _, _ => by
      exact absurd hf (by have := needV_pos v; omega)
  | .null, fuel+1, rest, _, _, _ => rfl
  | .bool true, fuel+1, rest, _, _, _ => rfl
  | .bool false, fuel+1, rest, _, _, _ => rfl
  | .num n, fuel+1, rest, _, _, hrest => by
      show parseV (fuel+1) (intChars n ++ rest) = some (.num n, rest)
      unfold intChars
      split
      · rename_i hneg
        rw [List.cons_append]
        conv_lhs => unfold parseV
        rw [wsSkip_cons_of _ _ (by decide) (by decide) (by decide) (by decide)]
        dsimp only
        rw [if_neg (by decide), if_neg (by decide), if_neg (by decide), if_neg (by decide),
          if_neg (by decide), if_neg (by decide), if_pos rfl]
        rw [parseNumDigits_natChars _ _ hrest]
        simp only [Option.map_some']
        have habs : -((n.natAbs : Int)) = n := by omega
        rw [habs]
      · rename_i hneg
        cases hnc : natChars n.toNat with
        | nil => exact absurd hnc (natChars_ne_nil n.toNat)
        | cons c cs =>
            rw [List.cons_append]
            have hdig : c.isDigit = true :=
              natChars_all_digits n.toNat c (hnc ▸ List.mem_cons_self c cs)
            obtain ⟨w1, w2, w3, w4⟩ := isDigit_ne_ws c hdig
            obtain ⟨k1, k2, k3, k4, k5, k6, k7⟩ := isDigit_ne_kw c hdig
            conv_lhs => unfold parseV
            rw [wsSkip_cons_of _ _ w1 w2 w3 w4]
            dsimp only
            rw [if_neg k1, if_neg k2, if_neg k3, if_neg k4, if_neg k5, if_neg k6,
              if_neg k7, if_pos hdig]
            rw [← List.cons_append, ← hnc]
            rw [parseNumDigits_natChars _ _ hrest]
            simp only [Option.map_some']
            have htn : ((n.toNat : Int)) = n := by omega
            rw [htn]
  | .str s, fuel+1, rest, _, _, _ => by
      have hsh : dumpsV (.str s) ++ rest = '"' :: (escStr s.data ++ '"' :: rest) := by
        show ('"' :: (escStr s.data ++ ['"'])) ++ rest = _
        simp [List.append_assoc]
      rw [hsh]
      conv_lhs => unfold parseV
      rw [wsSkip_cons_of _ _ (by decide) (by decide) (by decide) (by decide)]
      dsimp only
      rw [if_neg (by decide), if_neg (by decide), if_neg (by decide), if_pos rfl]
      rw [parseStr_escStr]
      rfl
  | .list .nil, fuel+1, rest, _, _, _ => by
      show parseV (fuel+1) (('[' :: ([] ++ [']'])) ++ rest) = some (.list .nil, rest)
      rfl
  | .list (.cons x tl), fuel+1, rest, hf, hnd, _ => by
      have hfl : needL (.cons x tl) ≤ fuel := by
        have h2 : 1 + needL (.cons x tl) ≤ fuel + 1 := hf
        omega
      have hnl : nodupKeysL (.cons x tl) = true := hnd
      have hsh : dumpsV (.list (.cons x tl)) ++ rest
          = '[' :: (dumpsL (.cons x tl) ++ ']' :: rest) := by
        show ('[' :: (dumpsL (.cons x tl) ++ [']'])) ++ rest = _
        simp [List.append_assoc]
      rw [hsh]
      conv_lhs => unfold parseV
      rw [wsSkip_cons_of _ _ (by decide) (by decide) (by decide) (by decide)]
      dsimp only
      rw [if_neg (by decide), if_neg (by decide), if_neg (by decide), if_neg (by decide),
        if_pos rfl]
      have hT : ∃ T, dumpsL (.cons x tl) ++ ']' :: rest = dumpsV x ++ T := by
        cases tl with
        | nil => exact ⟨']' :: rest, rfl⟩
        | cons y tl2 =>
            refine ⟨',' :: ' ' :: (dumpsL (.cons y tl2) ++ ']' :: rest), ?_⟩
            show (dumpsV x ++ ',' :: ' ' :: dumpsL (.cons y tl2)) ++ ']' :: rest = _
            simp [List.append_assoc]
      obtain ⟨T, hTeq⟩ := hT
      rw [hTeq, wsSkip_dumpsV]
      obtain ⟨c, cs, hcv⟩ := List.exists_cons_of_ne_nil (dumpsV_ne_nil x)
      obtain ⟨hd1, _⟩ := dumpsV_head_not_delim x c cs hcv
      rw [hcv, List.cons_append]
      split
      · rename_i r2 heq
        injection heq with h1 _
        exact absurd h1 hd1
      · rw [← List.cons_append, ← hcv, ← hTeq]
        rw [parseL_dumps (.cons x tl) fuel rest (fun h => PyList.noConfusion h) hfl hnl]
  | .obj .nil, fuel+1, rest, _, _, _ => by
      show parseV (fuel+1) (('{' :: ([] ++ ['}'])) ++ rest) = some (.obj .nil, rest)
      rfl
  | .obj (.cons k v tl), fuel+1, rest, hf, hnd, _ => by
      have hfo : needO (.cons k v tl) ≤ fuel := by
        have h2 : 1 + needO (.cons k v tl) ≤ fuel + 1 := hf
        omega
      have hnd2 : (decide (PyObj.keys (.cons k v tl)).Nodup
          && nodupKeysO (.cons k v tl)) = true := hnd
      rw [Bool.and_eq_true] at hnd2
      have hkeys : (PyObj.keys (.cons k v tl)).Nodup := of_decide_eq_true hnd2.1
      have hno : nodupKeysO (.cons k v tl) = true := hnd2.2
      have hsh : dumpsV (.obj (.cons k v tl)) ++ rest
          = '{' :: (dumpsO (.cons k v tl) ++ '}' :: rest) := by
        show ('{' :: (dumpsO (.cons k v tl) ++ ['}'])) ++ rest = _
        simp [List.append_assoc]
      rw [hsh]
      conv_lhs => unfold parseV
      rw [wsSkip_cons_of _ _ (by decide) (by decide) (by decide) (by decide)]
      dsimp only
      rw [if_neg (by decide), if_neg (by decide), if_neg (by decide), if_neg (by decide),
        if_neg (by decide), if_pos rfl]
      have hhead : ∃ T, dumpsO (.cons k v tl) ++ '}' :: rest = '"' :: T := by
        cases tl with
        | nil =>
            refine ⟨escStr k.data ++ '"' :: ':' :: ' ' :: dumpsV v ++ '}' :: rest, ?_⟩
            show ('"' :: (escStr k.data ++ '"' :: ':' :: ' ' :: dumpsV v)) ++ '}' :: rest = _
            simp [List.append_assoc]
        | cons k2 v2 tl2 =>
            refine ⟨escStr k.data ++ '"' :: ':' :: ' ' :: dumpsV v
              ++ ',' :: ' ' :: (dumpsO (.cons k2 v2 tl2) ++ '}' :: rest), ?_⟩
            show (('"' :: (escStr k.data ++ '"' :: ':' :: ' ' :: dumpsV v))
                ++ ',' :: ' ' :: dumpsO (.cons k2 v2 tl2)) ++ '}' :: rest = _
            simp [List.append_assoc]
      obtain ⟨T, hTeq⟩ := hhead
      rw [hTeq]
      rw [wsSkip_cons_of _ _ (by decide) (by decide) (by decide) (by decide)]
      split
      · rename_i r2 heq
        injection heq with h1 _
        exact absurd h1 (by decide)
      · rw [← hTeq]
        rw [parseO_dumps (.cons k v tl) fuel rest (fun h => PyObj.noConfusion h) hfo hno]
        dsimp only
        rw [objFromList_toPairs _ hkeys]

theorem parseL_dumps : ∀ (l : PyList) (fuel : Nat) (rest : List Char), l ≠ .nil →
    needL l ≤ fuel → nodupKeysL l = true →
    parseL fuel (dumpsL l ++ ']' :: rest) = some (l, rest)
  | l, 0, _, _, hf, _ => by
      exact absurd hf (by have := needL_pos l; omega)
  | .nil, _+1, _, hne, _, _ => absurd rfl hne
  | .cons x tl, fuel+1, rest, _, hf, hnd => by
      have hnd2 : (nodupKeysV x && nodupKeysL tl) = true := hnd
      rw [Bool.and_eq_true] at hnd2
      cases tl with
      | nil =>
          have hfx : needV x ≤ fuel := by
            have h2 : 1 + needV x ≤ fuel + 1 := hf
            omega
          show parseL (fuel+1) (dumpsV x ++ ']' :: rest) = some (.cons x .nil, rest)
          conv_lhs => unfold parseL
          rw [parseV_dumps x fuel (']' :: rest) hfx hnd2.1
            (fun c r2 h => by injection h with h1 _; subst h1; decide)]
          dsimp only
          rw [wsSkip_cons_of _ _ (by decide) (by decide) (by decide) (by decide)]
          dsimp only
          rw [if_neg (by decide), if_pos rfl]
      | cons y tl2 =>
          have hfx : needV x ≤ fuel := by
            have h2 : 1 + max (needV x) (needL (.cons y tl2)) ≤ fuel + 1 := hf
            omega
          have hftl : needL (.cons y tl2) ≤ fuel := by
            have h2 : 1 + max (needV x) (needL (.cons y tl2)) ≤ fuel + 1 := hf
            omega
          have hsh : dumpsL (.cons x (.cons y tl2)) ++ ']' :: rest
              = dumpsV x ++ (',' :: ' ' :: (dumpsL (.cons y tl2) ++ ']' :: rest)) := by
            show (dumpsV x ++ ',' :: ' ' :: dumpsL (.cons y tl2)) ++ ']' :: rest = _
            simp [List.append_assoc]
          rw [hsh]
          conv_lhs => unfold parseL
          rw [parseV_dumps x fuel _ hfx hnd2.1
            (fun c r2 h => by injection h with h1 _; subst h1; decide)]
          dsimp only
          rw [wsSkip_cons_of _ _ (by decide) (by decide) (by decide) (by decide)]
          dsimp only
          rw [if_pos rfl, parseL_space]
          rw [parseL_dumps (.cons y tl2) fuel rest (fun h => PyList.noConfusion h)
            hftl hnd2.2]

theorem parseO_dumps : ∀ (o : PyObj) (fuel : Nat) (rest : List Char), o ≠ .nil →
    needO o ≤ fuel → nodupKeysO o = true →
    parseO fuel (dumpsO o ++ '}' :: rest) = some (o.toPairs, rest)
  | o, 0, _, _, hf, _ => by
      exact absurd hf (by have := needO_pos o; omega)
  | .nil, _+1, _, hne, _, _ => absurd rfl hne
  | .cons k v tl, fuel+1, rest, _, hf, hnd => by
      have hnd2 : (nodupKeysV v && nodupKeysO tl) = true := hnd
      rw [Bool.and_eq_true] at hnd2
      cases tl with
      | nil =>
          have hfv : needV v ≤ fuel := by
            have h2 : 1 + needV v ≤ fuel + 1 := hf
            omega
          have hsh : dumpsO (.cons k v .nil) ++ '}' :: rest
              = '"' :: (escStr k.data ++ '"' :: (':' :: ' ' :: (dumpsV v ++ '}' :: rest))) := by
            show ('"' :: (escStr k.data ++ '"' :: ':' :: ' ' :: dumpsV v)) ++ '}' :: rest = _
            simp [List.append_assoc]
          rw [hsh]
          conv_lhs => unfold parseO
          rw [wsSkip_cons_of _ _ (by decide) (by decide) (by decide) (by decide)]
          dsimp only
          rw [if_pos rfl]
          rw [parseStr_escStr]
          dsimp only
          rw [wsSkip_cons_of _ _ (by decide) (by decide) (by decide) (by decide)]
          dsimp only
          rw [if_pos rfl, parseV_space]
          rw [parseV_dumps v fuel _ hfv hnd2.1
            (fun c r2 h => by injection h with h1 _; subst h1; decide)]
          dsimp only
          rw [wsSkip_cons_of _ _ (by decide) (by decide) (by decide) (by decide)]
          dsimp only
          rw [if_neg (by decide), if_pos rfl]
          rfl
      | cons k2 v2 tl2 =>
          have hfv : needV v ≤ fuel := by
            have h2 : 1 + max (needV v) (needO (.cons k2 v2 tl2)) ≤ fuel + 1 := hf
            omega
          have hftl : needO (.cons k2 v2 tl2) ≤ fuel := by
            have h2 : 1 + max (needV v) (needO (.cons k2 v2 tl2)) ≤ fuel + 1 := hf
            omega
          have hsh : dumpsO (.cons k v (.cons k2 v2 tl2)) ++ '}' :: rest
              = '"' :: (escStr k.data ++ '"' :: (':' :: ' ' :: (dumpsV v
                  ++ ',' :: ' ' :: (dumpsO (.cons k2 v2 tl2) ++ '}' :: rest)))) := by
            show (('"' :: (escStr k.data ++ '"' :: ':' :: ' ' :: dumpsV v))
                ++ ',' :: ' ' :: dumpsO (.cons k2 v2 tl2)) ++ '}' :: rest = _
            simp [List.append_assoc]
          rw [hsh]
          conv_lhs => unfold parseO
          rw [wsSkip_cons_of _ _ (by decide) (by decide) (by decide) (by decide)]
          dsimp only
          rw [if_pos rfl]
          rw [parseStr_escStr]
          dsimp only
          rw [wsSkip_cons_of _ _ (by decide) (by decide) (by decide) (by decide)]
          dsimp only
          rw [if_pos rfl, parseV_space]
          rw [parseV_dumps v fuel _ hfv hnd2.1
            (fun c r2 h => by injection h with h1 _; subst h1; decide)]
          dsimp only
          rw [wsSkip_cons_of _ _ (by decide) (by decide) (by decide) (by decide)]
          dsimp only
          rw [if_pos rfl, parseO_space]
          rw [parseO_dumps (.cons k2 v2 tl2) fuel rest (fun h => PyObj.noConfusion h)
            hftl hnd2.2]
          rfl

end

/-! ## Claims C7 and C10 — the ORM JSON columns -/

theorem loads_dumps (v : PyVal) (hnd : nodupKeysV v = true) : loads (dumps v) = some v := by
  have hp := parseV_dumps v ((dumpsV v).length + 1) []
    (by have := needV_le v; omega) hnd (fun c r2 h => List.noConfusion h)
  rw [List.append_nil] at hp
  show (match parseV ((dumpsV v).length + 1) (dumpsV v) with
    | some (v, r) => if wsSkip r = [] then some v else none
    | none => none) = some v
  rw [hp]
  rfl

theorem dumps_obj_ne_empty (d : PyObj) : dumps (.obj d) ≠ "" := by
  intro h
  have h2 := congrArg String.data h
  exact List.noConfusion h2

/-- C7: the JSON getter/setter pairs round-trip: for every dictionary
value (string-keyed, integer numbers, unique keys at every level —
what a JSON-serializable Python dict is in this embedding),
`set_settings(d)` then `get_settings()` on an `Organization` returns
`d`, and `set_parameters(d)` then `get_parameters()` on an `AIModel`
returns `d`: the setter stores `json.dumps(d)` in the text column and
the getter parses it back. -/
theorem C7_json_roundtrip :
    (∀ (org : Organization) (d : PyObj), nodupKeysV (.obj d) = true →
      (org.set_settings d).get_settings = .obj d)
      ∧ (∀ (m : AIModel) (e : PyObj), nodupKeysV (.obj e) = true →
          (m.set_parameters e).get_parameters = .obj e) := by
  constructor
  · intro org d hnd
    show (match loadsExc (if dumps (.obj d) = "" then "{}" else dumps (.obj d)) with
      | .ok v => v
      | .error _ => .obj .nil) = .obj d
    rw [if_neg (dumps_obj_ne_empty d)]
    unfold loadsExc
    rw [loads_dumps _ hnd]
  · intro m e hnd
    show (if dumps (.obj e) = "" then (.obj .nil : PyVal)
      else match loadsExc (dumps (.obj e)) with
        | .ok v => v
        | .error _ => .obj .nil) = .obj e
    rw [if_neg (dumps_obj_ne_empty e)]
    unfold loadsExc
    rw [loads_dumps _ hnd]

/-- C7 witness: a concrete two-key dictionary round-trips through both
column pairs. -/
theorem C7_witness :
    nodupKeysV (.obj (.cons "a" (.num 1) (.cons "b" (.str "x") .nil))) = true
      ∧ ((Organization.mk "org" none none none).set_settings
          (.cons "a" (.num 1) (.cons "b" (.str "x") .nil))).get_settings
          = .obj (.cons "a" (.num 1) (.cons "b" (.str "x") .nil))
      ∧ ((AIModel.mk "m" "1" "matching" none none).set_parameters
          (.cons "a" (.num 1) (.cons "b" (.str "x") .nil))).get_parameters
          = .obj (.cons "a" (.num 1) (.cons "b" (.str "x") .nil)) :=
  ⟨by decide,
   C7_json_roundtrip.1 (Organization.mk "org" none none none)
     (.cons "a" (.num 1) (.cons "b" (.str "x") .nil)) (by decide),
   C7_json_roundtrip.2 (AIModel.mk "m" "1" "matching" none none)
     (.cons "a" (.num 1) (.cons "b" (.str "x") .nil)) (by decide)⟩

/-- C10: the JSON getters are total at the public interface.  On a
`NULL` column and on a stored string `json.loads` rejects, both
`Organization.get_settings` and `AIModel.get_parameters` return the
empty dict `{}` instead of letting the `JSONDecodeError` escape (the
embedding makes the raised error explicit in `loadsExc` and the getters
catch it). -/
theorem C10_json_getters_total :
    (∀ org : Organization, org.settings = none → org.get_settings = .obj .nil)
      ∧ (∀ (org : Organization) (s : String), org.settings = some s → loads s = none →
          org.get_settings = .obj .nil)
      ∧ (∀ m : AIModel, m.parameters = none → m.get_parameters = .obj .nil)
      ∧ (∀ (m : AIModel) (s : String), m.parameters = some s → loads s = none →
          m.get_parameters = .obj .nil) := by
  refine ⟨?_, ?_, ?_, ?_⟩
  · intro org h
    unfold Organization.get_settings
    rw [h]
    rfl
  · intro org s h hloads
    unfold Organization.get_settings
    rw [h]
    dsimp only
    by_cases hs : s = ""
    · rw [if_pos hs]
      rfl
    · rw [if_neg hs]
      unfold loadsExc
      rw [hloads]
  · intro m h
    unfold AIModel.get_parameters
    rw [h]
  · intro m s h hloads
    unfold AIModel.get_parameters
    rw [h]
    dsimp only
    by_cases hs : s = ""
    · rw [if_pos hs]
    · rw [if_neg hs]
      unfold loadsExc
      rw [hloads]

/-- C10 witness: a `NULL` column and a stored non-JSON string both give
`{}` from each getter. -/
theorem C10_witness :
    (Organization.mk "org" none none none).get_settings = .obj .nil
      ∧ (Organization.mk "org" none none (some "x")).get_settings = .obj .nil
      ∧ (AIModel.mk "m" "1" "matching" none none).get_parameters = .obj .nil
      ∧ (AIModel.mk "m" "1" "matching" (some "x") none).get_parameters = .obj .nil :=
  ⟨C10_json_getters_total.1 (Organization.mk "org" none none none) rfl,
   C10_json_getters_total.2.1 (Organization.mk "org" none none (some "x")) "x" rfl rfl,
   C10_json_getters_total.2.2.1 (AIModel.mk "m" "1" "matching" none none) rfl,
   C10_json_getters_total.2.2.2 (AIModel.mk "m" "1" "matching" (some "x") none) "x" rfl rfl⟩
